import Mathlib

/-!
Verification of the command dispatch mechanism of the email_center repository
(`src/command_processor.py`): the command parser, the name normalization, the
handler registry populated by the `command` decorator, and the dispatcher
`handle_command`.

The Python code is shallowly embedded: strings are Lean `String`s (lists of
characters), Python's whitespace conventions (`str.strip`, `str.split`,
`str.splitlines`) are modelled by executable character predicates, the
registry dict is a function `String → Option Handler`, Python exceptions
raised by a handler are modelled by `Except PyExc`, and the logger is
modelled by returning the ordered list of log events the dispatcher emits.
-/

namespace EmailCenter

/-- Python's whitespace test (`str.isspace`), the character class used by
`str.strip()` and no-argument `str.split()`: ASCII whitespace, the control
characters U+001C through U+001F and U+0085 that Python treats as
whitespace, and the Unicode space and line separators. -/
def isPySpace (c : Char) : Bool :=
  c = ' ' || c = '\t' || c = '\n' || c = '\x0b' || c = '\x0c' || c = '\r' ||
  c = '\x1c' || c = '\x1d' || c = '\x1e' || c = '\x1f' || c = '\x85' || c = '\xa0' ||
  c = ' ' || (' ' ≤ c && c ≤ ' ') || c = ' ' ||
  c = ' ' || c = ' ' || c = ' ' || c = '　'

/-- The line-boundary characters of Python's `str.splitlines`.  Every line
boundary is also Python whitespace. -/
def isLineBoundary (c : Char) : Bool :=
  c = '\n' || c = '\r' || c = '\x0b' || c = '\x0c' ||
  c = '\x1c' || c = '\x1d' || c = '\x1e' || c = '\x85' ||
  c = ' ' || c = ' '

/-- Drop the characters satisfying `p` from the end of a character list. -/
def rstripBy (p : Char → Bool) (l : List Char) : List Char :=
  (l.reverse.dropWhile p).reverse

/-- Python `str.strip()`: remove whitespace from both ends, as a block. -/
def pyStrip (s : String) : String :=
  ⟨rstripBy isPySpace (s.data.dropWhile isPySpace)⟩

/-- The first element of Python's `s.splitlines()` for non-empty `s` (and
`""` for empty `s`): the characters before the first line boundary. -/
def pyFirstLine (s : String) : String :=
  ⟨s.data.takeWhile (fun c => !isLineBoundary c)⟩

/-- Accumulator pass behind `pySplit`: `acc` holds the reversed characters of
the token currently being read. -/
def pySplitAux : List Char → List Char → List (List Char)
  | [], acc => if acc.isEmpty then [] else [acc.reverse]
  | c :: cs, acc =>
    if isPySpace c then
      if acc.isEmpty then pySplitAux cs [] else acc.reverse :: pySplitAux cs []
    else pySplitAux cs (c :: acc)

/-- Python's no-argument `str.split()`: the maximal runs of non-whitespace
characters, in order; never produces empty tokens. -/
def pySplit (s : String) : List String :=
  (pySplitAux s.data []).map (fun l => ⟨l⟩)

/-- A search tree from code point to the code points of its lowercase form,
holding the Unicode lowercase table CPython's `str.lower()` applies. -/
inductive LowerMap where
  | leaf : LowerMap
  | node : LowerMap → Nat → List Nat → LowerMap → LowerMap

/-- Search `LowerMap` for the lowercase mapping of a code point. -/
def findLM : LowerMap → Nat → Option (List Nat)
  | .leaf, _ => Option.none
  | .node l k v r, n =>
    if n < k then findLM l n else if k < n then findLM r n else some v

/-- All entries of a `LowerMap`, in tree order. -/
def entriesLM : LowerMap → List (Nat × List Nat)
  | .leaf => []
  | .node l k v r => entriesLM l ++ (k, v) :: entriesLM r

/-- Whether every entry of a `LowerMap` satisfies `p`; recursing over the
tree keeps the evaluation depth logarithmic. -/
def allTree (p : Nat → List Nat → Bool) : LowerMap → Bool
  | .leaf => true
  | .node l k v r => p k v && allTree p l && allTree p r

/-- The full per-character lowercase mapping of CPython's `str.lower()` for
code points at or above 0xC0, as a balanced search tree from code point to
the code points of its lowercase form (a list: U+0130 lowers to two
characters).  Code points below 0xC0 with a mapping are exactly A-Z. -/
def lowerMap : LowerMap :=
  (LowerMap.node (LowerMap.node (LowerMap.node (LowerMap.node (LowerMap.node (LowerMap.node
  (LowerMap.node (LowerMap.node (LowerMap.node (LowerMap.node (LowerMap.node LowerMap.leaf 192
  [224] LowerMap.leaf) 193 [225] LowerMap.leaf) 194 [226] (LowerMap.node (LowerMap.node
  LowerMap.leaf 195 [227] LowerMap.leaf) 196 [228] LowerMap.leaf)) 197 [229] (LowerMap.node
  (LowerMap.node (LowerMap.node LowerMap.leaf 198 [230] LowerMap.leaf) 199 [231] LowerMap.leaf)
  200 [232] (LowerMap.node LowerMap.leaf 201 [233] LowerMap.leaf))) 202 [234] (LowerMap.node
  (LowerMap.node (LowerMap.node (LowerMap.node LowerMap.leaf 203 [235] LowerMap.leaf) 204 [236]
  LowerMap.leaf) 205 [237] (LowerMap.node (LowerMap.node LowerMap.leaf 206 [238] LowerMap.leaf)
  207 [239] LowerMap.leaf)) 208 [240] (LowerMap.node (LowerMap.node (LowerMap.node LowerMap.leaf
  209 [241] LowerMap.leaf) 210 [242] LowerMap.leaf) 211 [243] (LowerMap.node LowerMap.leaf 212
  [244] LowerMap.leaf)))) 213 [245] (LowerMap.node (LowerMap.node (LowerMap.node (LowerMap.node
  (LowerMap.node LowerMap.leaf 214 [246] LowerMap.leaf) 216 [248] LowerMap.leaf) 217 [249]
  (LowerMap.node (LowerMap.node LowerMap.leaf 218 [250] LowerMap.leaf) 219 [251] LowerMap.leaf))
  220 [252] (LowerMap.node (LowerMap.node (LowerMap.node LowerMap.leaf 221 [253] LowerMap.leaf)
  222 [254] LowerMap.leaf) 256 [257] (LowerMap.node LowerMap.leaf 258 [259] LowerMap.leaf))) 260
  [261] (LowerMap.node (LowerMap.node (LowerMap.node (LowerMap.node LowerMap.leaf 262 [263]
  LowerMap.leaf) 264 [265] LowerMap.leaf) 266 [267] (LowerMap.node (LowerMap.node LowerMap.leaf
  268 [269] LowerMap.leaf) 270 [271] LowerMap.leaf)) 272 [273] (LowerMap.node (LowerMap.node
  (LowerMap.node LowerMap.leaf 274 [275] LowerMap.leaf) 276 [277] LowerMap.leaf) 278 [279]
  (LowerMap.node LowerMap.leaf 280 [281] LowerMap.leaf))))) 282 [283] (LowerMap.node
  (LowerMap.node (LowerMap.node (LowerMap.node (LowerMap.node (LowerMap.node LowerMap.leaf 284
  [285] LowerMap.leaf) 286 [287] LowerMap.leaf) 288 [289] (LowerMap.node (LowerMap.node
  LowerMap.leaf 290 [291] LowerMap.leaf) 292 [293] LowerMap.leaf)) 294 [295] (LowerMap.node
  (LowerMap.node (LowerMap.node LowerMap.leaf 296 [297] LowerMap.leaf) 298 [299] LowerMap.leaf)
  300 [301] (LowerMap.node LowerMap.leaf 302 [303] LowerMap.leaf))) 304 [105, 775] (LowerMap.node
  (LowerMap.node (LowerMap.node (LowerMap.node LowerMap.leaf 306 [307] LowerMap.leaf) 308 [309]
  LowerMap.leaf) 310 [311] (LowerMap.node (LowerMap.node LowerMap.leaf 313 [314] LowerMap.leaf)
  315 [316] LowerMap.leaf)) 317 [318] (LowerMap.node (LowerMap.node (LowerMap.node LowerMap.leaf
  319 [320] LowerMap.leaf) 321 [322] LowerMap.leaf) 323 [324] (LowerMap.node LowerMap.leaf 325
  [326] LowerMap.leaf)))) 327 [328] (LowerMap.node (LowerMap.node (LowerMap.node (LowerMap.node
  (LowerMap.node LowerMap.leaf 330 [331] LowerMap.leaf) 332 [333] LowerMap.leaf) 334 [335]
  (LowerMap.node (LowerMap.node LowerMap.leaf 336 [337] LowerMap.leaf) 338 [339] LowerMap.leaf))
  340 [341] (LowerMap.node (LowerMap.node (LowerMap.node LowerMap.leaf 342 [343] LowerMap.leaf)
  344 [345] LowerMap.leaf) 346 [347] (LowerMap.node LowerMap.leaf 348 [349] LowerMap.leaf))) 350
  [351] (LowerMap.node (LowerMap.node (LowerMap.node (LowerMap.node LowerMap.leaf 352 [353]
  LowerMap.leaf) 354 [355] LowerMap.leaf) 356 [357] (LowerMap.node (LowerMap.node LowerMap.leaf
  358 [359] LowerMap.leaf) 360 [361] LowerMap.leaf)) 362 [363] (LowerMap.node (LowerMap.node
  (LowerMap.node LowerMap.leaf 364 [365] LowerMap.leaf) 366 [367] LowerMap.leaf) 368 [369]
  (LowerMap.node LowerMap.leaf 370 [371] LowerMap.leaf)))))) 372 [373] (LowerMap.node
  (LowerMap.node (LowerMap.node (LowerMap.node (LowerMap.node (LowerMap.node (LowerMap.node
  LowerMap.leaf 374 [375] LowerMap.leaf) 376 [255] LowerMap.leaf) 377 [378] (LowerMap.node
  (LowerMap.node LowerMap.leaf 379 [380] LowerMap.leaf) 381 [382] LowerMap.leaf)) 385 [595]
  (LowerMap.node (LowerMap.node (LowerMap.node LowerMap.leaf 386 [387] LowerMap.leaf) 388 [389]
  LowerMap.leaf) 390 [596] (LowerMap.node LowerMap.leaf 391 [392] LowerMap.leaf))) 393 [598]
  (LowerMap.node (LowerMap.node (LowerMap.node (LowerMap.node LowerMap.leaf 394 [599]
  LowerMap.leaf) 395 [396] LowerMap.leaf) 398 [477] (LowerMap.node (LowerMap.node LowerMap.leaf
  399 [601] LowerMap.leaf) 400 [603] LowerMap.leaf)) 401 [402] (LowerMap.node (LowerMap.node
  (LowerMap.node LowerMap.leaf 403 [608] LowerMap.leaf) 404 [611] LowerMap.leaf) 406 [617]
  (LowerMap.node LowerMap.leaf 407 [616] LowerMap.leaf)))) 408 [409] (LowerMap.node (LowerMap.node
  (LowerMap.node (LowerMap.node (LowerMap.node LowerMap.leaf 412 [623] LowerMap.leaf) 413 [626]
  LowerMap.leaf) 415 [629] (LowerMap.node (LowerMap.node LowerMap.leaf 416 [417] LowerMap.leaf)
  418 [419] LowerMap.leaf)) 420 [421] (LowerMap.node (LowerMap.node (LowerMap.node LowerMap.leaf
  422 [640] LowerMap.leaf) 423 [424] LowerMap.leaf) 425 [643] (LowerMap.node LowerMap.leaf 428
  [429] LowerMap.leaf))) 430 [648] (LowerMap.node (LowerMap.node (LowerMap.node (LowerMap.node
  LowerMap.leaf 431 [432] LowerMap.leaf) 433 [650] LowerMap.leaf) 434 [651] (LowerMap.node
  (LowerMap.node LowerMap.leaf 435 [436] LowerMap.leaf) 437 [438] LowerMap.leaf)) 439 [658]
  (LowerMap.node (LowerMap.node (LowerMap.node LowerMap.leaf 440 [441] LowerMap.leaf) 444 [445]
  LowerMap.leaf) 452 [454] (LowerMap.node LowerMap.leaf 453 [454] LowerMap.leaf))))) 455 [457]
  (LowerMap.node (LowerMap.node (LowerMap.node (LowerMap.node (LowerMap.node (LowerMap.node
  LowerMap.leaf 456 [457] LowerMap.leaf) 458 [460] LowerMap.leaf) 459 [460] (LowerMap.node
  (LowerMap.node LowerMap.leaf 461 [462] LowerMap.leaf) 463 [464] LowerMap.leaf)) 465 [466]
  (LowerMap.node (LowerMap.node (LowerMap.node LowerMap.leaf 467 [468] LowerMap.leaf) 469 [470]
  LowerMap.leaf) 471 [472] (LowerMap.node LowerMap.leaf 473 [474] LowerMap.leaf))) 475 [476]
  (LowerMap.node (LowerMap.node (LowerMap.node (LowerMap.node LowerMap.leaf 478 [479]
  LowerMap.leaf) 480 [481] LowerMap.leaf) 482 [483] (LowerMap.node (LowerMap.node LowerMap.leaf
  484 [485] LowerMap.leaf) 486 [487] LowerMap.leaf)) 488 [489] (LowerMap.node (LowerMap.node
  (LowerMap.node LowerMap.leaf 490 [491] LowerMap.leaf) 492 [493] LowerMap.leaf) 494 [495]
  (LowerMap.node LowerMap.leaf 497 [499] LowerMap.leaf)))) 498 [499] (LowerMap.node (LowerMap.node
  (LowerMap.node (LowerMap.node (LowerMap.node LowerMap.leaf 500 [501] LowerMap.leaf) 502 [405]
  LowerMap.leaf) 503 [447] (LowerMap.node (LowerMap.node LowerMap.leaf 504 [505] LowerMap.leaf)
  506 [507] LowerMap.leaf)) 508 [509] (LowerMap.node (LowerMap.node (LowerMap.node LowerMap.leaf
  510 [511] LowerMap.leaf) 512 [513] LowerMap.leaf) 514 [515] (LowerMap.node LowerMap.leaf 516
  [517] LowerMap.leaf))) 518 [519] (LowerMap.node (LowerMap.node (LowerMap.node (LowerMap.node
  LowerMap.leaf 520 [521] LowerMap.leaf) 522 [523] LowerMap.leaf) 524 [525] (LowerMap.node
  (LowerMap.node LowerMap.leaf 526 [527] LowerMap.leaf) 528 [529] LowerMap.leaf)) 530 [531]
  (LowerMap.node (LowerMap.node (LowerMap.node LowerMap.leaf 532 [533] LowerMap.leaf) 534 [535]
  LowerMap.leaf) 536 [537] (LowerMap.node LowerMap.leaf 538 [539] LowerMap.leaf))))))) 540 [541]
  (LowerMap.node (LowerMap.node (LowerMap.node (LowerMap.node (LowerMap.node (LowerMap.node
  (LowerMap.node (LowerMap.node LowerMap.leaf 542 [543] LowerMap.leaf) 544 [414] LowerMap.leaf)
  546 [547] (LowerMap.node (LowerMap.node LowerMap.leaf 548 [549] LowerMap.leaf) 550 [551]
  LowerMap.leaf)) 552 [553] (LowerMap.node (LowerMap.node (LowerMap.node LowerMap.leaf 554 [555]
  LowerMap.leaf) 556 [557] LowerMap.leaf) 558 [559] (LowerMap.node LowerMap.leaf 560 [561]
  LowerMap.leaf))) 562 [563] (LowerMap.node (LowerMap.node (LowerMap.node (LowerMap.node
  LowerMap.leaf 570 [11365] LowerMap.leaf) 571 [572] LowerMap.leaf) 573 [410] (LowerMap.node
  (LowerMap.node LowerMap.leaf 574 [11366] LowerMap.leaf) 577 [578] LowerMap.leaf)) 579 [384]
  (LowerMap.node (LowerMap.node (LowerMap.node LowerMap.leaf 580 [649] LowerMap.leaf) 581 [652]
  LowerMap.leaf) 582 [583] (LowerMap.node LowerMap.leaf 584 [585] LowerMap.leaf)))) 586 [587]
  (LowerMap.node (LowerMap.node (LowerMap.node (LowerMap.node (LowerMap.node LowerMap.leaf 588
  [589] LowerMap.leaf) 590 [591] LowerMap.leaf) 880 [881] (LowerMap.node (LowerMap.node
  LowerMap.leaf 882 [883] LowerMap.leaf) 886 [887] LowerMap.leaf)) 895 [1011] (LowerMap.node
  (LowerMap.node (LowerMap.node LowerMap.leaf 902 [940] LowerMap.leaf) 904 [941] LowerMap.leaf)
  905 [942] (LowerMap.node LowerMap.leaf 906 [943] LowerMap.leaf))) 908 [972] (LowerMap.node
  (LowerMap.node (LowerMap.node (LowerMap.node LowerMap.leaf 910 [973] LowerMap.leaf) 911 [974]
  LowerMap.leaf) 913 [945] (LowerMap.node (LowerMap.node LowerMap.leaf 914 [946] LowerMap.leaf)
  915 [947] LowerMap.leaf)) 916 [948] (LowerMap.node (LowerMap.node (LowerMap.node LowerMap.leaf
  917 [949] LowerMap.leaf) 918 [950] LowerMap.leaf) 919 [951] (LowerMap.node LowerMap.leaf 920
  [952] LowerMap.leaf))))) 921 [953] (LowerMap.node (LowerMap.node (LowerMap.node (LowerMap.node
  (LowerMap.node (LowerMap.node LowerMap.leaf 922 [954] LowerMap.leaf) 923 [955] LowerMap.leaf)
  924 [956] (LowerMap.node (LowerMap.node LowerMap.leaf 925 [957] LowerMap.leaf) 926 [958]
  LowerMap.leaf)) 927 [959] (LowerMap.node (LowerMap.node (LowerMap.node LowerMap.leaf 928 [960]
  LowerMap.leaf) 929 [961] LowerMap.leaf) 931 [963] (LowerMap.node LowerMap.leaf 932 [964]
  LowerMap.leaf))) 933 [965] (LowerMap.node (LowerMap.node (LowerMap.node (LowerMap.node
  LowerMap.leaf 934 [966] LowerMap.leaf) 935 [967] LowerMap.leaf) 936 [968] (LowerMap.node
  (LowerMap.node LowerMap.leaf 937 [969] LowerMap.leaf) 938 [970] LowerMap.leaf)) 939 [971]
  (LowerMap.node (LowerMap.node (LowerMap.node LowerMap.leaf 975 [983] LowerMap.leaf) 984 [985]
  LowerMap.leaf) 986 [987] (LowerMap.node LowerMap.leaf 988 [989] LowerMap.leaf)))) 990 [991]
  (LowerMap.node (LowerMap.node (LowerMap.node (LowerMap.node (LowerMap.node LowerMap.leaf 992
  [993] LowerMap.leaf) 994 [995] LowerMap.leaf) 996 [997] (LowerMap.node (LowerMap.node
  LowerMap.leaf 998 [999] LowerMap.leaf) 1000 [1001] LowerMap.leaf)) 1002 [1003] (LowerMap.node
  (LowerMap.node (LowerMap.node LowerMap.leaf 1004 [1005] LowerMap.leaf) 1006 [1007]
  LowerMap.leaf) 1012 [952] (LowerMap.node LowerMap.leaf 1015 [1016] LowerMap.leaf))) 1017 [1010]
  (LowerMap.node (LowerMap.node (LowerMap.node (LowerMap.node LowerMap.leaf 1018 [1019]
  LowerMap.leaf) 1021 [891] LowerMap.leaf) 1022 [892] (LowerMap.node (LowerMap.node LowerMap.leaf
  1023 [893] LowerMap.leaf) 1024 [1104] LowerMap.leaf)) 1025 [1105] (LowerMap.node (LowerMap.node
  (LowerMap.node LowerMap.leaf 1026 [1106] LowerMap.leaf) 1027 [1107] LowerMap.leaf) 1028 [1108]
  (LowerMap.node LowerMap.leaf 1029 [1109] LowerMap.leaf)))))) 1030 [1110] (LowerMap.node
  (LowerMap.node (LowerMap.node (LowerMap.node (LowerMap.node (LowerMap.node (LowerMap.node
  LowerMap.leaf 1031 [1111] LowerMap.leaf) 1032 [1112] LowerMap.leaf) 1033 [1113] (LowerMap.node
  (LowerMap.node LowerMap.leaf 1034 [1114] LowerMap.leaf) 1035 [1115] LowerMap.leaf)) 1036 [1116]
  (LowerMap.node (LowerMap.node (LowerMap.node LowerMap.leaf 1037 [1117] LowerMap.leaf) 1038
  [1118] LowerMap.leaf) 1039 [1119] (LowerMap.node LowerMap.leaf 1040 [1072] LowerMap.leaf))) 1041
  [1073] (LowerMap.node (LowerMap.node (LowerMap.node (LowerMap.node LowerMap.leaf 1042 [1074]
  LowerMap.leaf) 1043 [1075] LowerMap.leaf) 1044 [1076] (LowerMap.node (LowerMap.node
  LowerMap.leaf 1045 [1077] LowerMap.leaf) 1046 [1078] LowerMap.leaf)) 1047 [1079] (LowerMap.node
  (LowerMap.node (LowerMap.node LowerMap.leaf 1048 [1080] LowerMap.leaf) 1049 [1081]
  LowerMap.leaf) 1050 [1082] (LowerMap.node LowerMap.leaf 1051 [1083] LowerMap.leaf)))) 1052
  [1084] (LowerMap.node (LowerMap.node (LowerMap.node (LowerMap.node (LowerMap.node LowerMap.leaf
  1053 [1085] LowerMap.leaf) 1054 [1086] LowerMap.leaf) 1055 [1087] (LowerMap.node (LowerMap.node
  LowerMap.leaf 1056 [1088] LowerMap.leaf) 1057 [1089] LowerMap.leaf)) 1058 [1090] (LowerMap.node
  (LowerMap.node (LowerMap.node LowerMap.leaf 1059 [1091] LowerMap.leaf) 1060 [1092]
  LowerMap.leaf) 1061 [1093] (LowerMap.node LowerMap.leaf 1062 [1094] LowerMap.leaf))) 1063 [1095]
  (LowerMap.node (LowerMap.node (LowerMap.node (LowerMap.node LowerMap.leaf 1064 [1096]
  LowerMap.leaf) 1065 [1097] LowerMap.leaf) 1066 [1098] (LowerMap.node (LowerMap.node
  LowerMap.leaf 1067 [1099] LowerMap.leaf) 1068 [1100] LowerMap.leaf)) 1069 [1101] (LowerMap.node
  (LowerMap.node (LowerMap.node LowerMap.leaf 1070 [1102] LowerMap.leaf) 1071 [1103]
  LowerMap.leaf) 1120 [1121] (LowerMap.node LowerMap.leaf 1122 [1123] LowerMap.leaf))))) 1124
  [1125] (LowerMap.node (LowerMap.node (LowerMap.node (LowerMap.node (LowerMap.node (LowerMap.node
  LowerMap.leaf 1126 [1127] LowerMap.leaf) 1128 [1129] LowerMap.leaf) 1130 [1131] (LowerMap.node
  (LowerMap.node LowerMap.leaf 1132 [1133] LowerMap.leaf) 1134 [1135] LowerMap.leaf)) 1136 [1137]
  (LowerMap.node (LowerMap.node (LowerMap.node LowerMap.leaf 1138 [1139] LowerMap.leaf) 1140
  [1141] LowerMap.leaf) 1142 [1143] (LowerMap.node LowerMap.leaf 1144 [1145] LowerMap.leaf))) 1146
  [1147] (LowerMap.node (LowerMap.node (LowerMap.node (LowerMap.node LowerMap.leaf 1148 [1149]
  LowerMap.leaf) 1150 [1151] LowerMap.leaf) 1152 [1153] (LowerMap.node (LowerMap.node
  LowerMap.leaf 1162 [1163] LowerMap.leaf) 1164 [1165] LowerMap.leaf)) 1166 [1167] (LowerMap.node
  (LowerMap.node (LowerMap.node LowerMap.leaf 1168 [1169] LowerMap.leaf) 1170 [1171]
  LowerMap.leaf) 1172 [1173] (LowerMap.node LowerMap.leaf 1174 [1175] LowerMap.leaf)))) 1176
  [1177] (LowerMap.node (LowerMap.node (LowerMap.node (LowerMap.node (LowerMap.node LowerMap.leaf
  1178 [1179] LowerMap.leaf) 1180 [1181] LowerMap.leaf) 1182 [1183] (LowerMap.node (LowerMap.node
  LowerMap.leaf 1184 [1185] LowerMap.leaf) 1186 [1187] LowerMap.leaf)) 1188 [1189] (LowerMap.node
  (LowerMap.node (LowerMap.node LowerMap.leaf 1190 [1191] LowerMap.leaf) 1192 [1193]
  LowerMap.leaf) 1194 [1195] (LowerMap.node LowerMap.leaf 1196 [1197] LowerMap.leaf))) 1198 [1199]
  (LowerMap.node (LowerMap.node (LowerMap.node (LowerMap.node LowerMap.leaf 1200 [1201]
  LowerMap.leaf) 1202 [1203] LowerMap.leaf) 1204 [1205] (LowerMap.node (LowerMap.node
  LowerMap.leaf 1206 [1207] LowerMap.leaf) 1208 [1209] LowerMap.leaf)) 1210 [1211] (LowerMap.node
  (LowerMap.node (LowerMap.node LowerMap.leaf 1212 [1213] LowerMap.leaf) 1214 [1215]
  LowerMap.leaf) 1216 [1231] (LowerMap.node LowerMap.leaf 1217 [1218] LowerMap.leaf)))))))) 1219
  [1220] (LowerMap.node (LowerMap.node (LowerMap.node (LowerMap.node (LowerMap.node (LowerMap.node
  (LowerMap.node (LowerMap.node (LowerMap.node LowerMap.leaf 1221 [1222] LowerMap.leaf) 1223
  [1224] LowerMap.leaf) 1225 [1226] (LowerMap.node (LowerMap.node LowerMap.leaf 1227 [1228]
  LowerMap.leaf) 1229 [1230] LowerMap.leaf)) 1232 [1233] (LowerMap.node (LowerMap.node
  (LowerMap.node LowerMap.leaf 1234 [1235] LowerMap.leaf) 1236 [1237] LowerMap.leaf) 1238 [1239]
  (LowerMap.node LowerMap.leaf 1240 [1241] LowerMap.leaf))) 1242 [1243] (LowerMap.node
  (LowerMap.node (LowerMap.node (LowerMap.node LowerMap.leaf 1244 [1245] LowerMap.leaf) 1246
  [1247] LowerMap.leaf) 1248 [1249] (LowerMap.node (LowerMap.node LowerMap.leaf 1250 [1251]
  LowerMap.leaf) 1252 [1253] LowerMap.leaf)) 1254 [1255] (LowerMap.node (LowerMap.node
  (LowerMap.node LowerMap.leaf 1256 [1257] LowerMap.leaf) 1258 [1259] LowerMap.leaf) 1260 [1261]
  (LowerMap.node LowerMap.leaf 1262 [1263] LowerMap.leaf)))) 1264 [1265] (LowerMap.node
  (LowerMap.node (LowerMap.node (LowerMap.node (LowerMap.node LowerMap.leaf 1266 [1267]
  LowerMap.leaf) 1268 [1269] LowerMap.leaf) 1270 [1271] (LowerMap.node (LowerMap.node
  LowerMap.leaf 1272 [1273] LowerMap.leaf) 1274 [1275] LowerMap.leaf)) 1276 [1277] (LowerMap.node
  (LowerMap.node (LowerMap.node LowerMap.leaf 1278 [1279] LowerMap.leaf) 1280 [1281]
  LowerMap.leaf) 1282 [1283] (LowerMap.node LowerMap.leaf 1284 [1285] LowerMap.leaf))) 1286 [1287]
  (LowerMap.node (LowerMap.node (LowerMap.node (LowerMap.node LowerMap.leaf 1288 [1289]
  LowerMap.leaf) 1290 [1291] LowerMap.leaf) 1292 [1293] (LowerMap.node (LowerMap.node
  LowerMap.leaf 1294 [1295] LowerMap.leaf) 1296 [1297] LowerMap.leaf)) 1298 [1299] (LowerMap.node
  (LowerMap.node (LowerMap.node LowerMap.leaf 1300 [1301] LowerMap.leaf) 1302 [1303]
  LowerMap.leaf) 1304 [1305] (LowerMap.node LowerMap.leaf 1306 [1307] LowerMap.leaf))))) 1308
  [1309] (LowerMap.node (LowerMap.node (LowerMap.node (LowerMap.node (LowerMap.node (LowerMap.node
  LowerMap.leaf 1310 [1311] LowerMap.leaf) 1312 [1313] LowerMap.leaf) 1314 [1315] (LowerMap.node
  (LowerMap.node LowerMap.leaf 1316 [1317] LowerMap.leaf) 1318 [1319] LowerMap.leaf)) 1320 [1321]
  (LowerMap.node (LowerMap.node (LowerMap.node LowerMap.leaf 1322 [1323] LowerMap.leaf) 1324
  [1325] LowerMap.leaf) 1326 [1327] (LowerMap.node LowerMap.leaf 1329 [1377] LowerMap.leaf))) 1330
  [1378] (LowerMap.node (LowerMap.node (LowerMap.node (LowerMap.node LowerMap.leaf 1331 [1379]
  LowerMap.leaf) 1332 [1380] LowerMap.leaf) 1333 [1381] (LowerMap.node (LowerMap.node
  LowerMap.leaf 1334 [1382] LowerMap.leaf) 1335 [1383] LowerMap.leaf)) 1336 [1384] (LowerMap.node
  (LowerMap.node (LowerMap.node LowerMap.leaf 1337 [1385] LowerMap.leaf) 1338 [1386]
  LowerMap.leaf) 1339 [1387] (LowerMap.node LowerMap.leaf 1340 [1388] LowerMap.leaf)))) 1341
  [1389] (LowerMap.node (LowerMap.node (LowerMap.node (LowerMap.node (LowerMap.node LowerMap.leaf
  1342 [1390] LowerMap.leaf) 1343 [1391] LowerMap.leaf) 1344 [1392] (LowerMap.node (LowerMap.node
  LowerMap.leaf 1345 [1393] LowerMap.leaf) 1346 [1394] LowerMap.leaf)) 1347 [1395] (LowerMap.node
  (LowerMap.node (LowerMap.node LowerMap.leaf 1348 [1396] LowerMap.leaf) 1349 [1397]
  LowerMap.leaf) 1350 [1398] (LowerMap.node LowerMap.leaf 1351 [1399] LowerMap.leaf))) 1352 [1400]
  (LowerMap.node (LowerMap.node (LowerMap.node (LowerMap.node LowerMap.leaf 1353 [1401]
  LowerMap.leaf) 1354 [1402] LowerMap.leaf) 1355 [1403] (LowerMap.node (LowerMap.node
  LowerMap.leaf 1356 [1404] LowerMap.leaf) 1357 [1405] LowerMap.leaf)) 1358 [1406] (LowerMap.node
  (LowerMap.node (LowerMap.node LowerMap.leaf 1359 [1407] LowerMap.leaf) 1360 [1408]
  LowerMap.leaf) 1361 [1409] (LowerMap.node LowerMap.leaf 1362 [1410] LowerMap.leaf)))))) 1363
  [1411] (LowerMap.node (LowerMap.node (LowerMap.node (LowerMap.node (LowerMap.node (LowerMap.node
  (LowerMap.node LowerMap.leaf 1364 [1412] LowerMap.leaf) 1365 [1413] LowerMap.leaf) 1366 [1414]
  (LowerMap.node (LowerMap.node LowerMap.leaf 4256 [11520] LowerMap.leaf) 4257 [11521]
  LowerMap.leaf)) 4258 [11522] (LowerMap.node (LowerMap.node (LowerMap.node LowerMap.leaf 4259
  [11523] LowerMap.leaf) 4260 [11524] LowerMap.leaf) 4261 [11525] (LowerMap.node LowerMap.leaf
  4262 [11526] LowerMap.leaf))) 4263 [11527] (LowerMap.node (LowerMap.node (LowerMap.node
  (LowerMap.node LowerMap.leaf 4264 [11528] LowerMap.leaf) 4265 [11529] LowerMap.leaf) 4266
  [11530] (LowerMap.node (LowerMap.node LowerMap.leaf 4267 [11531] LowerMap.leaf) 4268 [11532]
  LowerMap.leaf)) 4269 [11533] (LowerMap.node (LowerMap.node (LowerMap.node LowerMap.leaf 4270
  [11534] LowerMap.leaf) 4271 [11535] LowerMap.leaf) 4272 [11536] (LowerMap.node LowerMap.leaf
  4273 [11537] LowerMap.leaf)))) 4274 [11538] (LowerMap.node (LowerMap.node (LowerMap.node
  (LowerMap.node (LowerMap.node LowerMap.leaf 4275 [11539] LowerMap.leaf) 4276 [11540]
  LowerMap.leaf) 4277 [11541] (LowerMap.node (LowerMap.node LowerMap.leaf 4278 [11542]
  LowerMap.leaf) 4279 [11543] LowerMap.leaf)) 4280 [11544] (LowerMap.node (LowerMap.node
  (LowerMap.node LowerMap.leaf 4281 [11545] LowerMap.leaf) 4282 [11546] LowerMap.leaf) 4283
  [11547] (LowerMap.node LowerMap.leaf 4284 [11548] LowerMap.leaf))) 4285 [11549] (LowerMap.node
  (LowerMap.node (LowerMap.node (LowerMap.node LowerMap.leaf 4286 [11550] LowerMap.leaf) 4287
  [11551] LowerMap.leaf) 4288 [11552] (LowerMap.node (LowerMap.node LowerMap.leaf 4289 [11553]
  LowerMap.leaf) 4290 [11554] LowerMap.leaf)) 4291 [11555] (LowerMap.node (LowerMap.node
  (LowerMap.node LowerMap.leaf 4292 [11556] LowerMap.leaf) 4293 [11557] LowerMap.leaf) 4295
  [11559] (LowerMap.node LowerMap.leaf 4301 [11565] LowerMap.leaf))))) 5024 [43888] (LowerMap.node
  (LowerMap.node (LowerMap.node (LowerMap.node (LowerMap.node (LowerMap.node LowerMap.leaf 5025
  [43889] LowerMap.leaf) 5026 [43890] LowerMap.leaf) 5027 [43891] (LowerMap.node (LowerMap.node
  LowerMap.leaf 5028 [43892] LowerMap.leaf) 5029 [43893] LowerMap.leaf)) 5030 [43894]
  (LowerMap.node (LowerMap.node (LowerMap.node LowerMap.leaf 5031 [43895] LowerMap.leaf) 5032
  [43896] LowerMap.leaf) 5033 [43897] (LowerMap.node LowerMap.leaf 5034 [43898] LowerMap.leaf)))
  5035 [43899] (LowerMap.node (LowerMap.node (LowerMap.node (LowerMap.node LowerMap.leaf 5036
  [43900] LowerMap.leaf) 5037 [43901] LowerMap.leaf) 5038 [43902] (LowerMap.node (LowerMap.node
  LowerMap.leaf 5039 [43903] LowerMap.leaf) 5040 [43904] LowerMap.leaf)) 5041 [43905]
  (LowerMap.node (LowerMap.node (LowerMap.node LowerMap.leaf 5042 [43906] LowerMap.leaf) 5043
  [43907] LowerMap.leaf) 5044 [43908] (LowerMap.node LowerMap.leaf 5045 [43909] LowerMap.leaf))))
  5046 [43910] (LowerMap.node (LowerMap.node (LowerMap.node (LowerMap.node (LowerMap.node
  LowerMap.leaf 5047 [43911] LowerMap.leaf) 5048 [43912] LowerMap.leaf) 5049 [43913]
  (LowerMap.node (LowerMap.node LowerMap.leaf 5050 [43914] LowerMap.leaf) 5051 [43915]
  LowerMap.leaf)) 5052 [43916] (LowerMap.node (LowerMap.node (LowerMap.node LowerMap.leaf 5053
  [43917] LowerMap.leaf) 5054 [43918] LowerMap.leaf) 5055 [43919] (LowerMap.node LowerMap.leaf
  5056 [43920] LowerMap.leaf))) 5057 [43921] (LowerMap.node (LowerMap.node (LowerMap.node
  (LowerMap.node LowerMap.leaf 5058 [43922] LowerMap.leaf) 5059 [43923] LowerMap.leaf) 5060
  [43924] (LowerMap.node (LowerMap.node LowerMap.leaf 5061 [43925] LowerMap.leaf) 5062 [43926]
  LowerMap.leaf)) 5063 [43927] (LowerMap.node (LowerMap.node (LowerMap.node LowerMap.leaf 5064
  [43928] LowerMap.leaf) 5065 [43929] LowerMap.leaf) 5066 [43930] (LowerMap.node LowerMap.leaf
  5067 [43931] LowerMap.leaf))))))) 5068 [43932] (LowerMap.node (LowerMap.node (LowerMap.node
  (LowerMap.node (LowerMap.node (LowerMap.node (LowerMap.node (LowerMap.node LowerMap.leaf 5069
  [43933] LowerMap.leaf) 5070 [43934] LowerMap.leaf) 5071 [43935] (LowerMap.node (LowerMap.node
  LowerMap.leaf 5072 [43936] LowerMap.leaf) 5073 [43937] LowerMap.leaf)) 5074 [43938]
  (LowerMap.node (LowerMap.node (LowerMap.node LowerMap.leaf 5075 [43939] LowerMap.leaf) 5076
  [43940] LowerMap.leaf) 5077 [43941] (LowerMap.node LowerMap.leaf 5078 [43942] LowerMap.leaf)))
  5079 [43943] (LowerMap.node (LowerMap.node (LowerMap.node (LowerMap.node LowerMap.leaf 5080
  [43944] LowerMap.leaf) 5081 [43945] LowerMap.leaf) 5082 [43946] (LowerMap.node (LowerMap.node
  LowerMap.leaf 5083 [43947] LowerMap.leaf) 5084 [43948] LowerMap.leaf)) 5085 [43949]
  (LowerMap.node (LowerMap.node (LowerMap.node LowerMap.leaf 5086 [43950] LowerMap.leaf) 5087
  [43951] LowerMap.leaf) 5088 [43952] (LowerMap.node LowerMap.leaf 5089 [43953] LowerMap.leaf))))
  5090 [43954] (LowerMap.node (LowerMap.node (LowerMap.node (LowerMap.node (LowerMap.node
  LowerMap.leaf 5091 [43955] LowerMap.leaf) 5092 [43956] LowerMap.leaf) 5093 [43957]
  (LowerMap.node (LowerMap.node LowerMap.leaf 5094 [43958] LowerMap.leaf) 5095 [43959]
  LowerMap.leaf)) 5096 [43960] (LowerMap.node (LowerMap.node (LowerMap.node LowerMap.leaf 5097
  [43961] LowerMap.leaf) 5098 [43962] LowerMap.leaf) 5099 [43963] (LowerMap.node LowerMap.leaf
  5100 [43964] LowerMap.leaf))) 5101 [43965] (LowerMap.node (LowerMap.node (LowerMap.node
  (LowerMap.node LowerMap.leaf 5102 [43966] LowerMap.leaf) 5103 [43967] LowerMap.leaf) 5104 [5112]
  (LowerMap.node (LowerMap.node LowerMap.leaf 5105 [5113] LowerMap.leaf) 5106 [5114]
  LowerMap.leaf)) 5107 [5115] (LowerMap.node (LowerMap.node (LowerMap.node LowerMap.leaf 5108
  [5116] LowerMap.leaf) 5109 [5117] LowerMap.leaf) 7312 [4304] (LowerMap.node LowerMap.leaf 7313
  [4305] LowerMap.leaf))))) 7314 [4306] (LowerMap.node (LowerMap.node (LowerMap.node
  (LowerMap.node (LowerMap.node (LowerMap.node LowerMap.leaf 7315 [4307] LowerMap.leaf) 7316
  [4308] LowerMap.leaf) 7317 [4309] (LowerMap.node (LowerMap.node LowerMap.leaf 7318 [4310]
  LowerMap.leaf) 7319 [4311] LowerMap.leaf)) 7320 [4312] (LowerMap.node (LowerMap.node
  (LowerMap.node LowerMap.leaf 7321 [4313] LowerMap.leaf) 7322 [4314] LowerMap.leaf) 7323 [4315]
  (LowerMap.node LowerMap.leaf 7324 [4316] LowerMap.leaf))) 7325 [4317] (LowerMap.node
  (LowerMap.node (LowerMap.node (LowerMap.node LowerMap.leaf 7326 [4318] LowerMap.leaf) 7327
  [4319] LowerMap.leaf) 7328 [4320] (LowerMap.node (LowerMap.node LowerMap.leaf 7329 [4321]
  LowerMap.leaf) 7330 [4322] LowerMap.leaf)) 7331 [4323] (LowerMap.node (LowerMap.node
  (LowerMap.node LowerMap.leaf 7332 [4324] LowerMap.leaf) 7333 [4325] LowerMap.leaf) 7334 [4326]
  (LowerMap.node LowerMap.leaf 7335 [4327] LowerMap.leaf)))) 7336 [4328] (LowerMap.node
  (LowerMap.node (LowerMap.node (LowerMap.node (LowerMap.node LowerMap.leaf 7337 [4329]
  LowerMap.leaf) 7338 [4330] LowerMap.leaf) 7339 [4331] (LowerMap.node (LowerMap.node
  LowerMap.leaf 7340 [4332] LowerMap.leaf) 7341 [4333] LowerMap.leaf)) 7342 [4334] (LowerMap.node
  (LowerMap.node (LowerMap.node LowerMap.leaf 7343 [4335] LowerMap.leaf) 7344 [4336]
  LowerMap.leaf) 7345 [4337] (LowerMap.node LowerMap.leaf 7346 [4338] LowerMap.leaf))) 7347 [4339]
  (LowerMap.node (LowerMap.node (LowerMap.node (LowerMap.node LowerMap.leaf 7348 [4340]
  LowerMap.leaf) 7349 [4341] LowerMap.leaf) 7350 [4342] (LowerMap.node (LowerMap.node
  LowerMap.leaf 7351 [4343] LowerMap.leaf) 7352 [4344] LowerMap.leaf)) 7353 [4345] (LowerMap.node
  (LowerMap.node (LowerMap.node LowerMap.leaf 7354 [4346] LowerMap.leaf) 7357 [4349]
  LowerMap.leaf) 7358 [4350] (LowerMap.node LowerMap.leaf 7359 [4351] LowerMap.leaf)))))) 7680
  [7681] (LowerMap.node (LowerMap.node (LowerMap.node (LowerMap.node (LowerMap.node (LowerMap.node
  (LowerMap.node LowerMap.leaf 7682 [7683] LowerMap.leaf) 7684 [7685] LowerMap.leaf) 7686 [7687]
  (LowerMap.node (LowerMap.node LowerMap.leaf 7688 [7689] LowerMap.leaf) 7690 [7691]
  LowerMap.leaf)) 7692 [7693] (LowerMap.node (LowerMap.node (LowerMap.node LowerMap.leaf 7694
  [7695] LowerMap.leaf) 7696 [7697] LowerMap.leaf) 7698 [7699] (LowerMap.node LowerMap.leaf 7700
  [7701] LowerMap.leaf))) 7702 [7703] (LowerMap.node (LowerMap.node (LowerMap.node (LowerMap.node
  LowerMap.leaf 7704 [7705] LowerMap.leaf) 7706 [7707] LowerMap.leaf) 7708 [7709] (LowerMap.node
  (LowerMap.node LowerMap.leaf 7710 [7711] LowerMap.leaf) 7712 [7713] LowerMap.leaf)) 7714 [7715]
  (LowerMap.node (LowerMap.node (LowerMap.node LowerMap.leaf 7716 [7717] LowerMap.leaf) 7718
  [7719] LowerMap.leaf) 7720 [7721] (LowerMap.node LowerMap.leaf 7722 [7723] LowerMap.leaf))))
  7724 [7725] (LowerMap.node (LowerMap.node (LowerMap.node (LowerMap.node (LowerMap.node
  LowerMap.leaf 7726 [7727] LowerMap.leaf) 7728 [7729] LowerMap.leaf) 7730 [7731] (LowerMap.node
  (LowerMap.node LowerMap.leaf 7732 [7733] LowerMap.leaf) 7734 [7735] LowerMap.leaf)) 7736 [7737]
  (LowerMap.node (LowerMap.node (LowerMap.node LowerMap.leaf 7738 [7739] LowerMap.leaf) 7740
  [7741] LowerMap.leaf) 7742 [7743] (LowerMap.node LowerMap.leaf 7744 [7745] LowerMap.leaf))) 7746
  [7747] (LowerMap.node (LowerMap.node (LowerMap.node (LowerMap.node LowerMap.leaf 7748 [7749]
  LowerMap.leaf) 7750 [7751] LowerMap.leaf) 7752 [7753] (LowerMap.node (LowerMap.node
  LowerMap.leaf 7754 [7755] LowerMap.leaf) 7756 [7757] LowerMap.leaf)) 7758 [7759] (LowerMap.node
  (LowerMap.node (LowerMap.node LowerMap.leaf 7760 [7761] LowerMap.leaf) 7762 [7763]
  LowerMap.leaf) 7764 [7765] (LowerMap.node LowerMap.leaf 7766 [7767] LowerMap.leaf))))) 7768
  [7769] (LowerMap.node (LowerMap.node (LowerMap.node (LowerMap.node (LowerMap.node (LowerMap.node
  LowerMap.leaf 7770 [7771] LowerMap.leaf) 7772 [7773] LowerMap.leaf) 7774 [7775] (LowerMap.node
  (LowerMap.node LowerMap.leaf 7776 [7777] LowerMap.leaf) 7778 [7779] LowerMap.leaf)) 7780 [7781]
  (LowerMap.node (LowerMap.node (LowerMap.node LowerMap.leaf 7782 [7783] LowerMap.leaf) 7784
  [7785] LowerMap.leaf) 7786 [7787] (LowerMap.node LowerMap.leaf 7788 [7789] LowerMap.leaf))) 7790
  [7791] (LowerMap.node (LowerMap.node (LowerMap.node (LowerMap.node LowerMap.leaf 7792 [7793]
  LowerMap.leaf) 7794 [7795] LowerMap.leaf) 7796 [7797] (LowerMap.node (LowerMap.node
  LowerMap.leaf 7798 [7799] LowerMap.leaf) 7800 [7801] LowerMap.leaf)) 7802 [7803] (LowerMap.node
  (LowerMap.node (LowerMap.node LowerMap.leaf 7804 [7805] LowerMap.leaf) 7806 [7807]
  LowerMap.leaf) 7808 [7809] (LowerMap.node LowerMap.leaf 7810 [7811] LowerMap.leaf)))) 7812
  [7813] (LowerMap.node (LowerMap.node (LowerMap.node (LowerMap.node (LowerMap.node LowerMap.leaf
  7814 [7815] LowerMap.leaf) 7816 [7817] LowerMap.leaf) 7818 [7819] (LowerMap.node (LowerMap.node
  LowerMap.leaf 7820 [7821] LowerMap.leaf) 7822 [7823] LowerMap.leaf)) 7824 [7825] (LowerMap.node
  (LowerMap.node (LowerMap.node LowerMap.leaf 7826 [7827] LowerMap.leaf) 7828 [7829]
  LowerMap.leaf) 7838 [223] (LowerMap.node LowerMap.leaf 7840 [7841] LowerMap.leaf))) 7842 [7843]
  (LowerMap.node (LowerMap.node (LowerMap.node (LowerMap.node LowerMap.leaf 7844 [7845]
  LowerMap.leaf) 7846 [7847] LowerMap.leaf) 7848 [7849] (LowerMap.node (LowerMap.node
  LowerMap.leaf 7850 [7851] LowerMap.leaf) 7852 [7853] LowerMap.leaf)) 7854 [7855] (LowerMap.node
  (LowerMap.node (LowerMap.node LowerMap.leaf 7856 [7857] LowerMap.leaf) 7858 [7859]
  LowerMap.leaf) 7860 [7861] (LowerMap.node LowerMap.leaf 7862 [7863] LowerMap.leaf))))))))) 7864
  [7865] (LowerMap.node (LowerMap.node (LowerMap.node (LowerMap.node (LowerMap.node (LowerMap.node
  (LowerMap.node (LowerMap.node (LowerMap.node (LowerMap.node LowerMap.leaf 7866 [7867]
  LowerMap.leaf) 7868 [7869] LowerMap.leaf) 7870 [7871] (LowerMap.node (LowerMap.node
  LowerMap.leaf 7872 [7873] LowerMap.leaf) 7874 [7875] LowerMap.leaf)) 7876 [7877] (LowerMap.node
  (LowerMap.node (LowerMap.node LowerMap.leaf 7878 [7879] LowerMap.leaf) 7880 [7881]
  LowerMap.leaf) 7882 [7883] (LowerMap.node LowerMap.leaf 7884 [7885] LowerMap.leaf))) 7886 [7887]
  (LowerMap.node (LowerMap.node (LowerMap.node (LowerMap.node LowerMap.leaf 7888 [7889]
  LowerMap.leaf) 7890 [7891] LowerMap.leaf) 7892 [7893] (LowerMap.node (LowerMap.node
  LowerMap.leaf 7894 [7895] LowerMap.leaf) 7896 [7897] LowerMap.leaf)) 7898 [7899] (LowerMap.node
  (LowerMap.node (LowerMap.node LowerMap.leaf 7900 [7901] LowerMap.leaf) 7902 [7903]
  LowerMap.leaf) 7904 [7905] (LowerMap.node LowerMap.leaf 7906 [7907] LowerMap.leaf)))) 7908
  [7909] (LowerMap.node (LowerMap.node (LowerMap.node (LowerMap.node (LowerMap.node LowerMap.leaf
  7910 [7911] LowerMap.leaf) 7912 [7913] LowerMap.leaf) 7914 [7915] (LowerMap.node (LowerMap.node
  LowerMap.leaf 7916 [7917] LowerMap.leaf) 7918 [7919] LowerMap.leaf)) 7920 [7921] (LowerMap.node
  (LowerMap.node (LowerMap.node LowerMap.leaf 7922 [7923] LowerMap.leaf) 7924 [7925]
  LowerMap.leaf) 7926 [7927] (LowerMap.node LowerMap.leaf 7928 [7929] LowerMap.leaf))) 7930 [7931]
  (LowerMap.node (LowerMap.node (LowerMap.node (LowerMap.node LowerMap.leaf 7932 [7933]
  LowerMap.leaf) 7934 [7935] LowerMap.leaf) 7944 [7936] (LowerMap.node (LowerMap.node
  LowerMap.leaf 7945 [7937] LowerMap.leaf) 7946 [7938] LowerMap.leaf)) 7947 [7939] (LowerMap.node
  (LowerMap.node (LowerMap.node LowerMap.leaf 7948 [7940] LowerMap.leaf) 7949 [7941]
  LowerMap.leaf) 7950 [7942] (LowerMap.node LowerMap.leaf 7951 [7943] LowerMap.leaf))))) 7960
  [7952] (LowerMap.node (LowerMap.node (LowerMap.node (LowerMap.node (LowerMap.node (LowerMap.node
  LowerMap.leaf 7961 [7953] LowerMap.leaf) 7962 [7954] LowerMap.leaf) 7963 [7955] (LowerMap.node
  (LowerMap.node LowerMap.leaf 7964 [7956] LowerMap.leaf) 7965 [7957] LowerMap.leaf)) 7976 [7968]
  (LowerMap.node (LowerMap.node (LowerMap.node LowerMap.leaf 7977 [7969] LowerMap.leaf) 7978
  [7970] LowerMap.leaf) 7979 [7971] (LowerMap.node LowerMap.leaf 7980 [7972] LowerMap.leaf))) 7981
  [7973] (LowerMap.node (LowerMap.node (LowerMap.node (LowerMap.node LowerMap.leaf 7982 [7974]
  LowerMap.leaf) 7983 [7975] LowerMap.leaf) 7992 [7984] (LowerMap.node (LowerMap.node
  LowerMap.leaf 7993 [7985] LowerMap.leaf) 7994 [7986] LowerMap.leaf)) 7995 [7987] (LowerMap.node
  (LowerMap.node (LowerMap.node LowerMap.leaf 7996 [7988] LowerMap.leaf) 7997 [7989]
  LowerMap.leaf) 7998 [7990] (LowerMap.node LowerMap.leaf 7999 [7991] LowerMap.leaf)))) 8008
  [8000] (LowerMap.node (LowerMap.node (LowerMap.node (LowerMap.node (LowerMap.node LowerMap.leaf
  8009 [8001] LowerMap.leaf) 8010 [8002] LowerMap.leaf) 8011 [8003] (LowerMap.node (LowerMap.node
  LowerMap.leaf 8012 [8004] LowerMap.leaf) 8013 [8005] LowerMap.leaf)) 8025 [8017] (LowerMap.node
  (LowerMap.node (LowerMap.node LowerMap.leaf 8027 [8019] LowerMap.leaf) 8029 [8021]
  LowerMap.leaf) 8031 [8023] (LowerMap.node LowerMap.leaf 8040 [8032] LowerMap.leaf))) 8041 [8033]
  (LowerMap.node (LowerMap.node (LowerMap.node (LowerMap.node LowerMap.leaf 8042 [8034]
  LowerMap.leaf) 8043 [8035] LowerMap.leaf) 8044 [8036] (LowerMap.node (LowerMap.node
  LowerMap.leaf 8045 [8037] LowerMap.leaf) 8046 [8038] LowerMap.leaf)) 8047 [8039] (LowerMap.node
  (LowerMap.node (LowerMap.node LowerMap.leaf 8072 [8064] LowerMap.leaf) 8073 [8065]
  LowerMap.leaf) 8074 [8066] (LowerMap.node LowerMap.leaf 8075 [8067] LowerMap.leaf)))))) 8076
  [8068] (LowerMap.node (LowerMap.node (LowerMap.node (LowerMap.node (LowerMap.node (LowerMap.node
  (LowerMap.node LowerMap.leaf 8077 [8069] LowerMap.leaf) 8078 [8070] LowerMap.leaf) 8079 [8071]
  (LowerMap.node (LowerMap.node LowerMap.leaf 8088 [8080] LowerMap.leaf) 8089 [8081]
  LowerMap.leaf)) 8090 [8082] (LowerMap.node (LowerMap.node (LowerMap.node LowerMap.leaf 8091
  [8083] LowerMap.leaf) 8092 [8084] LowerMap.leaf) 8093 [8085] (LowerMap.node LowerMap.leaf 8094
  [8086] LowerMap.leaf))) 8095 [8087] (LowerMap.node (LowerMap.node (LowerMap.node (LowerMap.node
  LowerMap.leaf 8104 [8096] LowerMap.leaf) 8105 [8097] LowerMap.leaf) 8106 [8098] (LowerMap.node
  (LowerMap.node LowerMap.leaf 8107 [8099] LowerMap.leaf) 8108 [8100] LowerMap.leaf)) 8109 [8101]
  (LowerMap.node (LowerMap.node (LowerMap.node LowerMap.leaf 8110 [8102] LowerMap.leaf) 8111
  [8103] LowerMap.leaf) 8120 [8112] (LowerMap.node LowerMap.leaf 8121 [8113] LowerMap.leaf))))
  8122 [8048] (LowerMap.node (LowerMap.node (LowerMap.node (LowerMap.node (LowerMap.node
  LowerMap.leaf 8123 [8049] LowerMap.leaf) 8124 [8115] LowerMap.leaf) 8136 [8050] (LowerMap.node
  (LowerMap.node LowerMap.leaf 8137 [8051] LowerMap.leaf) 8138 [8052] LowerMap.leaf)) 8139 [8053]
  (LowerMap.node (LowerMap.node (LowerMap.node LowerMap.leaf 8140 [8131] LowerMap.leaf) 8152
  [8144] LowerMap.leaf) 8153 [8145] (LowerMap.node LowerMap.leaf 8154 [8054] LowerMap.leaf))) 8155
  [8055] (LowerMap.node (LowerMap.node (LowerMap.node (LowerMap.node LowerMap.leaf 8168 [8160]
  LowerMap.leaf) 8169 [8161] LowerMap.leaf) 8170 [8058] (LowerMap.node (LowerMap.node
  LowerMap.leaf 8171 [8059] LowerMap.leaf) 8172 [8165] LowerMap.leaf)) 8184 [8056] (LowerMap.node
  (LowerMap.node (LowerMap.node LowerMap.leaf 8185 [8057] LowerMap.leaf) 8186 [8060]
  LowerMap.leaf) 8187 [8061] (LowerMap.node LowerMap.leaf 8188 [8179] LowerMap.leaf))))) 8486
  [969] (LowerMap.node (LowerMap.node (LowerMap.node (LowerMap.node (LowerMap.node (LowerMap.node
  LowerMap.leaf 8490 [107] LowerMap.leaf) 8491 [229] LowerMap.leaf) 8498 [8526] (LowerMap.node
  (LowerMap.node LowerMap.leaf 8544 [8560] LowerMap.leaf) 8545 [8561] LowerMap.leaf)) 8546 [8562]
  (LowerMap.node (LowerMap.node (LowerMap.node LowerMap.leaf 8547 [8563] LowerMap.leaf) 8548
  [8564] LowerMap.leaf) 8549 [8565] (LowerMap.node LowerMap.leaf 8550 [8566] LowerMap.leaf))) 8551
  [8567] (LowerMap.node (LowerMap.node (LowerMap.node (LowerMap.node LowerMap.leaf 8552 [8568]
  LowerMap.leaf) 8553 [8569] LowerMap.leaf) 8554 [8570] (LowerMap.node (LowerMap.node
  LowerMap.leaf 8555 [8571] LowerMap.leaf) 8556 [8572] LowerMap.leaf)) 8557 [8573] (LowerMap.node
  (LowerMap.node (LowerMap.node LowerMap.leaf 8558 [8574] LowerMap.leaf) 8559 [8575]
  LowerMap.leaf) 8579 [8580] (LowerMap.node LowerMap.leaf 9398 [9424] LowerMap.leaf)))) 9399
  [9425] (LowerMap.node (LowerMap.node (LowerMap.node (LowerMap.node (LowerMap.node LowerMap.leaf
  9400 [9426] LowerMap.leaf) 9401 [9427] LowerMap.leaf) 9402 [9428] (LowerMap.node (LowerMap.node
  LowerMap.leaf 9403 [9429] LowerMap.leaf) 9404 [9430] LowerMap.leaf)) 9405 [9431] (LowerMap.node
  (LowerMap.node (LowerMap.node LowerMap.leaf 9406 [9432] LowerMap.leaf) 9407 [9433]
  LowerMap.leaf) 9408 [9434] (LowerMap.node LowerMap.leaf 9409 [9435] LowerMap.leaf))) 9410 [9436]
  (LowerMap.node (LowerMap.node (LowerMap.node (LowerMap.node LowerMap.leaf 9411 [9437]
  LowerMap.leaf) 9412 [9438] LowerMap.leaf) 9413 [9439] (LowerMap.node (LowerMap.node
  LowerMap.leaf 9414 [9440] LowerMap.leaf) 9415 [9441] LowerMap.leaf)) 9416 [9442] (LowerMap.node
  (LowerMap.node (LowerMap.node LowerMap.leaf 9417 [9443] LowerMap.leaf) 9418 [9444]
  LowerMap.leaf) 9419 [9445] (LowerMap.node LowerMap.leaf 9420 [9446] LowerMap.leaf))))))) 9421
  [9447] (LowerMap.node (LowerMap.node (LowerMap.node (LowerMap.node (LowerMap.node (LowerMap.node
  (LowerMap.node (LowerMap.node LowerMap.leaf 9422 [9448] LowerMap.leaf) 9423 [9449]
  LowerMap.leaf) 11264 [11312] (LowerMap.node (LowerMap.node LowerMap.leaf 11265 [11313]
  LowerMap.leaf) 11266 [11314] LowerMap.leaf)) 11267 [11315] (LowerMap.node (LowerMap.node
  (LowerMap.node LowerMap.leaf 11268 [11316] LowerMap.leaf) 11269 [11317] LowerMap.leaf) 11270
  [11318] (LowerMap.node LowerMap.leaf 11271 [11319] LowerMap.leaf))) 11272 [11320] (LowerMap.node
  (LowerMap.node (LowerMap.node (LowerMap.node LowerMap.leaf 11273 [11321] LowerMap.leaf) 11274
  [11322] LowerMap.leaf) 11275 [11323] (LowerMap.node (LowerMap.node LowerMap.leaf 11276 [11324]
  LowerMap.leaf) 11277 [11325] LowerMap.leaf)) 11278 [11326] (LowerMap.node (LowerMap.node
  (LowerMap.node LowerMap.leaf 11279 [11327] LowerMap.leaf) 11280 [11328] LowerMap.leaf) 11281
  [11329] (LowerMap.node LowerMap.leaf 11282 [11330] LowerMap.leaf)))) 11283 [11331]
  (LowerMap.node (LowerMap.node (LowerMap.node (LowerMap.node (LowerMap.node LowerMap.leaf 11284
  [11332] LowerMap.leaf) 11285 [11333] LowerMap.leaf) 11286 [11334] (LowerMap.node (LowerMap.node
  LowerMap.leaf 11287 [11335] LowerMap.leaf) 11288 [11336] LowerMap.leaf)) 11289 [11337]
  (LowerMap.node (LowerMap.node (LowerMap.node LowerMap.leaf 11290 [11338] LowerMap.leaf) 11291
  [11339] LowerMap.leaf) 11292 [11340] (LowerMap.node LowerMap.leaf 11293 [11341] LowerMap.leaf)))
  11294 [11342] (LowerMap.node (LowerMap.node (LowerMap.node (LowerMap.node LowerMap.leaf 11295
  [11343] LowerMap.leaf) 11296 [11344] LowerMap.leaf) 11297 [11345] (LowerMap.node (LowerMap.node
  LowerMap.leaf 11298 [11346] LowerMap.leaf) 11299 [11347] LowerMap.leaf)) 11300 [11348]
  (LowerMap.node (LowerMap.node (LowerMap.node LowerMap.leaf 11301 [11349] LowerMap.leaf) 11302
  [11350] LowerMap.leaf) 11303 [11351] (LowerMap.node LowerMap.leaf 11304 [11352]
  LowerMap.leaf))))) 11305 [11353] (LowerMap.node (LowerMap.node (LowerMap.node (LowerMap.node
  (LowerMap.node (LowerMap.node LowerMap.leaf 11306 [11354] LowerMap.leaf) 11307 [11355]
  LowerMap.leaf) 11308 [11356] (LowerMap.node (LowerMap.node LowerMap.leaf 11309 [11357]
  LowerMap.leaf) 11310 [11358] LowerMap.leaf)) 11311 [11359] (LowerMap.node (LowerMap.node
  (LowerMap.node LowerMap.leaf 11360 [11361] LowerMap.leaf) 11362 [619] LowerMap.leaf) 11363
  [7549] (LowerMap.node LowerMap.leaf 11364 [637] LowerMap.leaf))) 11367 [11368] (LowerMap.node
  (LowerMap.node (LowerMap.node (LowerMap.node LowerMap.leaf 11369 [11370] LowerMap.leaf) 11371
  [11372] LowerMap.leaf) 11373 [593] (LowerMap.node (LowerMap.node LowerMap.leaf 11374 [625]
  LowerMap.leaf) 11375 [592] LowerMap.leaf)) 11376 [594] (LowerMap.node (LowerMap.node
  (LowerMap.node LowerMap.leaf 11378 [11379] LowerMap.leaf) 11381 [11382] LowerMap.leaf) 11390
  [575] (LowerMap.node LowerMap.leaf 11391 [576] LowerMap.leaf)))) 11392 [11393] (LowerMap.node
  (LowerMap.node (LowerMap.node (LowerMap.node (LowerMap.node LowerMap.leaf 11394 [11395]
  LowerMap.leaf) 11396 [11397] LowerMap.leaf) 11398 [11399] (LowerMap.node (LowerMap.node
  LowerMap.leaf 11400 [11401] LowerMap.leaf) 11402 [11403] LowerMap.leaf)) 11404 [11405]
  (LowerMap.node (LowerMap.node (LowerMap.node LowerMap.leaf 11406 [11407] LowerMap.leaf) 11408
  [11409] LowerMap.leaf) 11410 [11411] (LowerMap.node LowerMap.leaf 11412 [11413] LowerMap.leaf)))
  11414 [11415] (LowerMap.node (LowerMap.node (LowerMap.node (LowerMap.node LowerMap.leaf 11416
  [11417] LowerMap.leaf) 11418 [11419] LowerMap.leaf) 11420 [11421] (LowerMap.node (LowerMap.node
  LowerMap.leaf 11422 [11423] LowerMap.leaf) 11424 [11425] LowerMap.leaf)) 11426 [11427]
  (LowerMap.node (LowerMap.node (LowerMap.node LowerMap.leaf 11428 [11429] LowerMap.leaf) 11430
  [11431] LowerMap.leaf) 11432 [11433] (LowerMap.node LowerMap.leaf 11434 [11435]
  LowerMap.leaf)))))) 11436 [11437] (LowerMap.node (LowerMap.node (LowerMap.node (LowerMap.node
  (LowerMap.node (LowerMap.node (LowerMap.node LowerMap.leaf 11438 [11439] LowerMap.leaf) 11440
  [11441] LowerMap.leaf) 11442 [11443] (LowerMap.node (LowerMap.node LowerMap.leaf 11444 [11445]
  LowerMap.leaf) 11446 [11447] LowerMap.leaf)) 11448 [11449] (LowerMap.node (LowerMap.node
  (LowerMap.node LowerMap.leaf 11450 [11451] LowerMap.leaf) 11452 [11453] LowerMap.leaf) 11454
  [11455] (LowerMap.node LowerMap.leaf 11456 [11457] LowerMap.leaf))) 11458 [11459] (LowerMap.node
  (LowerMap.node (LowerMap.node (LowerMap.node LowerMap.leaf 11460 [11461] LowerMap.leaf) 11462
  [11463] LowerMap.leaf) 11464 [11465] (LowerMap.node (LowerMap.node LowerMap.leaf 11466 [11467]
  LowerMap.leaf) 11468 [11469] LowerMap.leaf)) 11470 [11471] (LowerMap.node (LowerMap.node
  (LowerMap.node LowerMap.leaf 11472 [11473] LowerMap.leaf) 11474 [11475] LowerMap.leaf) 11476
  [11477] (LowerMap.node LowerMap.leaf 11478 [11479] LowerMap.leaf)))) 11480 [11481]
  (LowerMap.node (LowerMap.node (LowerMap.node (LowerMap.node (LowerMap.node LowerMap.leaf 11482
  [11483] LowerMap.leaf) 11484 [11485] LowerMap.leaf) 11486 [11487] (LowerMap.node (LowerMap.node
  LowerMap.leaf 11488 [11489] LowerMap.leaf) 11490 [11491] LowerMap.leaf)) 11499 [11500]
  (LowerMap.node (LowerMap.node (LowerMap.node LowerMap.leaf 11501 [11502] LowerMap.leaf) 11506
  [11507] LowerMap.leaf) 42560 [42561] (LowerMap.node LowerMap.leaf 42562 [42563] LowerMap.leaf)))
  42564 [42565] (LowerMap.node (LowerMap.node (LowerMap.node (LowerMap.node LowerMap.leaf 42566
  [42567] LowerMap.leaf) 42568 [42569] LowerMap.leaf) 42570 [42571] (LowerMap.node (LowerMap.node
  LowerMap.leaf 42572 [42573] LowerMap.leaf) 42574 [42575] LowerMap.leaf)) 42576 [42577]
  (LowerMap.node (LowerMap.node (LowerMap.node LowerMap.leaf 42578 [42579] LowerMap.leaf) 42580
  [42581] LowerMap.leaf) 42582 [42583] (LowerMap.node LowerMap.leaf 42584 [42585]
  LowerMap.leaf))))) 42586 [42587] (LowerMap.node (LowerMap.node (LowerMap.node (LowerMap.node
  (LowerMap.node (LowerMap.node LowerMap.leaf 42588 [42589] LowerMap.leaf) 42590 [42591]
  LowerMap.leaf) 42592 [42593] (LowerMap.node (LowerMap.node LowerMap.leaf 42594 [42595]
  LowerMap.leaf) 42596 [42597] LowerMap.leaf)) 42598 [42599] (LowerMap.node (LowerMap.node
  (LowerMap.node LowerMap.leaf 42600 [42601] LowerMap.leaf) 42602 [42603] LowerMap.leaf) 42604
  [42605] (LowerMap.node LowerMap.leaf 42624 [42625] LowerMap.leaf))) 42626 [42627] (LowerMap.node
  (LowerMap.node (LowerMap.node (LowerMap.node LowerMap.leaf 42628 [42629] LowerMap.leaf) 42630
  [42631] LowerMap.leaf) 42632 [42633] (LowerMap.node (LowerMap.node LowerMap.leaf 42634 [42635]
  LowerMap.leaf) 42636 [42637] LowerMap.leaf)) 42638 [42639] (LowerMap.node (LowerMap.node
  (LowerMap.node LowerMap.leaf 42640 [42641] LowerMap.leaf) 42642 [42643] LowerMap.leaf) 42644
  [42645] (LowerMap.node LowerMap.leaf 42646 [42647] LowerMap.leaf)))) 42648 [42649]
  (LowerMap.node (LowerMap.node (LowerMap.node (LowerMap.node (LowerMap.node LowerMap.leaf 42650
  [42651] LowerMap.leaf) 42786 [42787] LowerMap.leaf) 42788 [42789] (LowerMap.node (LowerMap.node
  LowerMap.leaf 42790 [42791] LowerMap.leaf) 42792 [42793] LowerMap.leaf)) 42794 [42795]
  (LowerMap.node (LowerMap.node (LowerMap.node LowerMap.leaf 42796 [42797] LowerMap.leaf) 42798
  [42799] LowerMap.leaf) 42802 [42803] (LowerMap.node LowerMap.leaf 42804 [42805] LowerMap.leaf)))
  42806 [42807] (LowerMap.node (LowerMap.node (LowerMap.node (LowerMap.node LowerMap.leaf 42808
  [42809] LowerMap.leaf) 42810 [42811] LowerMap.leaf) 42812 [42813] (LowerMap.node (LowerMap.node
  LowerMap.leaf 42814 [42815] LowerMap.leaf) 42816 [42817] LowerMap.leaf)) 42818 [42819]
  (LowerMap.node (LowerMap.node (LowerMap.node LowerMap.leaf 42820 [42821] LowerMap.leaf) 42822
  [42823] LowerMap.leaf) 42824 [42825] (LowerMap.node LowerMap.leaf 42826 [42827]
  LowerMap.leaf)))))))) 42828 [42829] (LowerMap.node (LowerMap.node (LowerMap.node (LowerMap.node
  (LowerMap.node (LowerMap.node (LowerMap.node (LowerMap.node (LowerMap.node LowerMap.leaf 42830
  [42831] LowerMap.leaf) 42832 [42833] LowerMap.leaf) 42834 [42835] (LowerMap.node (LowerMap.node
  LowerMap.leaf 42836 [42837] LowerMap.leaf) 42838 [42839] LowerMap.leaf)) 42840 [42841]
  (LowerMap.node (LowerMap.node (LowerMap.node LowerMap.leaf 42842 [42843] LowerMap.leaf) 42844
  [42845] LowerMap.leaf) 42846 [42847] (LowerMap.node LowerMap.leaf 42848 [42849] LowerMap.leaf)))
  42850 [42851] (LowerMap.node (LowerMap.node (LowerMap.node (LowerMap.node LowerMap.leaf 42852
  [42853] LowerMap.leaf) 42854 [42855] LowerMap.leaf) 42856 [42857] (LowerMap.node (LowerMap.node
  LowerMap.leaf 42858 [42859] LowerMap.leaf) 42860 [42861] LowerMap.leaf)) 42862 [42863]
  (LowerMap.node (LowerMap.node (LowerMap.node LowerMap.leaf 42873 [42874] LowerMap.leaf) 42875
  [42876] LowerMap.leaf) 42877 [7545] (LowerMap.node LowerMap.leaf 42878 [42879] LowerMap.leaf))))
  42880 [42881] (LowerMap.node (LowerMap.node (LowerMap.node (LowerMap.node (LowerMap.node
  LowerMap.leaf 42882 [42883] LowerMap.leaf) 42884 [42885] LowerMap.leaf) 42886 [42887]
  (LowerMap.node (LowerMap.node LowerMap.leaf 42891 [42892] LowerMap.leaf) 42893 [613]
  LowerMap.leaf)) 42896 [42897] (LowerMap.node (LowerMap.node (LowerMap.node LowerMap.leaf 42898
  [42899] LowerMap.leaf) 42902 [42903] LowerMap.leaf) 42904 [42905] (LowerMap.node LowerMap.leaf
  42906 [42907] LowerMap.leaf))) 42908 [42909] (LowerMap.node (LowerMap.node (LowerMap.node
  (LowerMap.node LowerMap.leaf 42910 [42911] LowerMap.leaf) 42912 [42913] LowerMap.leaf) 42914
  [42915] (LowerMap.node (LowerMap.node LowerMap.leaf 42916 [42917] LowerMap.leaf) 42918 [42919]
  LowerMap.leaf)) 42920 [42921] (LowerMap.node (LowerMap.node (LowerMap.node LowerMap.leaf 42922
  [614] LowerMap.leaf) 42923 [604] LowerMap.leaf) 42924 [609] (LowerMap.node LowerMap.leaf 42925
  [620] LowerMap.leaf))))) 42926 [618] (LowerMap.node (LowerMap.node (LowerMap.node (LowerMap.node
  (LowerMap.node (LowerMap.node LowerMap.leaf 42928 [670] LowerMap.leaf) 42929 [647]
  LowerMap.leaf) 42930 [669] (LowerMap.node (LowerMap.node LowerMap.leaf 42931 [43859]
  LowerMap.leaf) 42932 [42933] LowerMap.leaf)) 42934 [42935] (LowerMap.node (LowerMap.node
  (LowerMap.node LowerMap.leaf 42936 [42937] LowerMap.leaf) 42938 [42939] LowerMap.leaf) 42940
  [42941] (LowerMap.node LowerMap.leaf 42942 [42943] LowerMap.leaf))) 42944 [42945] (LowerMap.node
  (LowerMap.node (LowerMap.node (LowerMap.node LowerMap.leaf 42946 [42947] LowerMap.leaf) 42948
  [42900] LowerMap.leaf) 42949 [642] (LowerMap.node (LowerMap.node LowerMap.leaf 42950 [7566]
  LowerMap.leaf) 42951 [42952] LowerMap.leaf)) 42953 [42954] (LowerMap.node (LowerMap.node
  (LowerMap.node LowerMap.leaf 42960 [42961] LowerMap.leaf) 42966 [42967] LowerMap.leaf) 42968
  [42969] (LowerMap.node LowerMap.leaf 42997 [42998] LowerMap.leaf)))) 65313 [65345]
  (LowerMap.node (LowerMap.node (LowerMap.node (LowerMap.node (LowerMap.node LowerMap.leaf 65314
  [65346] LowerMap.leaf) 65315 [65347] LowerMap.leaf) 65316 [65348] (LowerMap.node (LowerMap.node
  LowerMap.leaf 65317 [65349] LowerMap.leaf) 65318 [65350] LowerMap.leaf)) 65319 [65351]
  (LowerMap.node (LowerMap.node (LowerMap.node LowerMap.leaf 65320 [65352] LowerMap.leaf) 65321
  [65353] LowerMap.leaf) 65322 [65354] (LowerMap.node LowerMap.leaf 65323 [65355] LowerMap.leaf)))
  65324 [65356] (LowerMap.node (LowerMap.node (LowerMap.node (LowerMap.node LowerMap.leaf 65325
  [65357] LowerMap.leaf) 65326 [65358] LowerMap.leaf) 65327 [65359] (LowerMap.node (LowerMap.node
  LowerMap.leaf 65328 [65360] LowerMap.leaf) 65329 [65361] LowerMap.leaf)) 65330 [65362]
  (LowerMap.node (LowerMap.node (LowerMap.node LowerMap.leaf 65331 [65363] LowerMap.leaf) 65332
  [65364] LowerMap.leaf) 65333 [65365] (LowerMap.node LowerMap.leaf 65334 [65366]
  LowerMap.leaf)))))) 65335 [65367] (LowerMap.node (LowerMap.node (LowerMap.node (LowerMap.node
  (LowerMap.node (LowerMap.node (LowerMap.node LowerMap.leaf 65336 [65368] LowerMap.leaf) 65337
  [65369] LowerMap.leaf) 65338 [65370] (LowerMap.node (LowerMap.node LowerMap.leaf 66560 [66600]
  LowerMap.leaf) 66561 [66601] LowerMap.leaf)) 66562 [66602] (LowerMap.node (LowerMap.node
  (LowerMap.node LowerMap.leaf 66563 [66603] LowerMap.leaf) 66564 [66604] LowerMap.leaf) 66565
  [66605] (LowerMap.node LowerMap.leaf 66566 [66606] LowerMap.leaf))) 66567 [66607] (LowerMap.node
  (LowerMap.node (LowerMap.node (LowerMap.node LowerMap.leaf 66568 [66608] LowerMap.leaf) 66569
  [66609] LowerMap.leaf) 66570 [66610] (LowerMap.node (LowerMap.node LowerMap.leaf 66571 [66611]
  LowerMap.leaf) 66572 [66612] LowerMap.leaf)) 66573 [66613] (LowerMap.node (LowerMap.node
  (LowerMap.node LowerMap.leaf 66574 [66614] LowerMap.leaf) 66575 [66615] LowerMap.leaf) 66576
  [66616] (LowerMap.node LowerMap.leaf 66577 [66617] LowerMap.leaf)))) 66578 [66618]
  (LowerMap.node (LowerMap.node (LowerMap.node (LowerMap.node (LowerMap.node LowerMap.leaf 66579
  [66619] LowerMap.leaf) 66580 [66620] LowerMap.leaf) 66581 [66621] (LowerMap.node (LowerMap.node
  LowerMap.leaf 66582 [66622] LowerMap.leaf) 66583 [66623] LowerMap.leaf)) 66584 [66624]
  (LowerMap.node (LowerMap.node (LowerMap.node LowerMap.leaf 66585 [66625] LowerMap.leaf) 66586
  [66626] LowerMap.leaf) 66587 [66627] (LowerMap.node LowerMap.leaf 66588 [66628] LowerMap.leaf)))
  66589 [66629] (LowerMap.node (LowerMap.node (LowerMap.node (LowerMap.node LowerMap.leaf 66590
  [66630] LowerMap.leaf) 66591 [66631] LowerMap.leaf) 66592 [66632] (LowerMap.node (LowerMap.node
  LowerMap.leaf 66593 [66633] LowerMap.leaf) 66594 [66634] LowerMap.leaf)) 66595 [66635]
  (LowerMap.node (LowerMap.node (LowerMap.node LowerMap.leaf 66596 [66636] LowerMap.leaf) 66597
  [66637] LowerMap.leaf) 66598 [66638] (LowerMap.node LowerMap.leaf 66599 [66639]
  LowerMap.leaf))))) 66736 [66776] (LowerMap.node (LowerMap.node (LowerMap.node (LowerMap.node
  (LowerMap.node (LowerMap.node LowerMap.leaf 66737 [66777] LowerMap.leaf) 66738 [66778]
  LowerMap.leaf) 66739 [66779] (LowerMap.node (LowerMap.node LowerMap.leaf 66740 [66780]
  LowerMap.leaf) 66741 [66781] LowerMap.leaf)) 66742 [66782] (LowerMap.node (LowerMap.node
  (LowerMap.node LowerMap.leaf 66743 [66783] LowerMap.leaf) 66744 [66784] LowerMap.leaf) 66745
  [66785] (LowerMap.node LowerMap.leaf 66746 [66786] LowerMap.leaf))) 66747 [66787] (LowerMap.node
  (LowerMap.node (LowerMap.node (LowerMap.node LowerMap.leaf 66748 [66788] LowerMap.leaf) 66749
  [66789] LowerMap.leaf) 66750 [66790] (LowerMap.node (LowerMap.node LowerMap.leaf 66751 [66791]
  LowerMap.leaf) 66752 [66792] LowerMap.leaf)) 66753 [66793] (LowerMap.node (LowerMap.node
  (LowerMap.node LowerMap.leaf 66754 [66794] LowerMap.leaf) 66755 [66795] LowerMap.leaf) 66756
  [66796] (LowerMap.node LowerMap.leaf 66757 [66797] LowerMap.leaf)))) 66758 [66798]
  (LowerMap.node (LowerMap.node (LowerMap.node (LowerMap.node (LowerMap.node LowerMap.leaf 66759
  [66799] LowerMap.leaf) 66760 [66800] LowerMap.leaf) 66761 [66801] (LowerMap.node (LowerMap.node
  LowerMap.leaf 66762 [66802] LowerMap.leaf) 66763 [66803] LowerMap.leaf)) 66764 [66804]
  (LowerMap.node (LowerMap.node (LowerMap.node LowerMap.leaf 66765 [66805] LowerMap.leaf) 66766
  [66806] LowerMap.leaf) 66767 [66807] (LowerMap.node LowerMap.leaf 66768 [66808] LowerMap.leaf)))
  66769 [66809] (LowerMap.node (LowerMap.node (LowerMap.node (LowerMap.node LowerMap.leaf 66770
  [66810] LowerMap.leaf) 66771 [66811] LowerMap.leaf) 66928 [66967] (LowerMap.node (LowerMap.node
  LowerMap.leaf 66929 [66968] LowerMap.leaf) 66930 [66969] LowerMap.leaf)) 66931 [66970]
  (LowerMap.node (LowerMap.node (LowerMap.node LowerMap.leaf 66932 [66971] LowerMap.leaf) 66933
  [66972] LowerMap.leaf) 66934 [66973] (LowerMap.node LowerMap.leaf 66935 [66974]
  LowerMap.leaf))))))) 66936 [66975] (LowerMap.node (LowerMap.node (LowerMap.node (LowerMap.node
  (LowerMap.node (LowerMap.node (LowerMap.node (LowerMap.node LowerMap.leaf 66937 [66976]
  LowerMap.leaf) 66938 [66977] LowerMap.leaf) 66940 [66979] (LowerMap.node (LowerMap.node
  LowerMap.leaf 66941 [66980] LowerMap.leaf) 66942 [66981] LowerMap.leaf)) 66943 [66982]
  (LowerMap.node (LowerMap.node (LowerMap.node LowerMap.leaf 66944 [66983] LowerMap.leaf) 66945
  [66984] LowerMap.leaf) 66946 [66985] (LowerMap.node LowerMap.leaf 66947 [66986] LowerMap.leaf)))
  66948 [66987] (LowerMap.node (LowerMap.node (LowerMap.node (LowerMap.node LowerMap.leaf 66949
  [66988] LowerMap.leaf) 66950 [66989] LowerMap.leaf) 66951 [66990] (LowerMap.node (LowerMap.node
  LowerMap.leaf 66952 [66991] LowerMap.leaf) 66953 [66992] LowerMap.leaf)) 66954 [66993]
  (LowerMap.node (LowerMap.node (LowerMap.node LowerMap.leaf 66956 [66995] LowerMap.leaf) 66957
  [66996] LowerMap.leaf) 66958 [66997] (LowerMap.node LowerMap.leaf 66959 [66998]
  LowerMap.leaf)))) 66960 [66999] (LowerMap.node (LowerMap.node (LowerMap.node (LowerMap.node
  (LowerMap.node LowerMap.leaf 66961 [67000] LowerMap.leaf) 66962 [67001] LowerMap.leaf) 66964
  [67003] (LowerMap.node (LowerMap.node LowerMap.leaf 66965 [67004] LowerMap.leaf) 68736 [68800]
  LowerMap.leaf)) 68737 [68801] (LowerMap.node (LowerMap.node (LowerMap.node LowerMap.leaf 68738
  [68802] LowerMap.leaf) 68739 [68803] LowerMap.leaf) 68740 [68804] (LowerMap.node LowerMap.leaf
  68741 [68805] LowerMap.leaf))) 68742 [68806] (LowerMap.node (LowerMap.node (LowerMap.node
  (LowerMap.node LowerMap.leaf 68743 [68807] LowerMap.leaf) 68744 [68808] LowerMap.leaf) 68745
  [68809] (LowerMap.node (LowerMap.node LowerMap.leaf 68746 [68810] LowerMap.leaf) 68747 [68811]
  LowerMap.leaf)) 68748 [68812] (LowerMap.node (LowerMap.node (LowerMap.node LowerMap.leaf 68749
  [68813] LowerMap.leaf) 68750 [68814] LowerMap.leaf) 68751 [68815] (LowerMap.node LowerMap.leaf
  68752 [68816] LowerMap.leaf))))) 68753 [68817] (LowerMap.node (LowerMap.node (LowerMap.node
  (LowerMap.node (LowerMap.node (LowerMap.node LowerMap.leaf 68754 [68818] LowerMap.leaf) 68755
  [68819] LowerMap.leaf) 68756 [68820] (LowerMap.node (LowerMap.node LowerMap.leaf 68757 [68821]
  LowerMap.leaf) 68758 [68822] LowerMap.leaf)) 68759 [68823] (LowerMap.node (LowerMap.node
  (LowerMap.node LowerMap.leaf 68760 [68824] LowerMap.leaf) 68761 [68825] LowerMap.leaf) 68762
  [68826] (LowerMap.node LowerMap.leaf 68763 [68827] LowerMap.leaf))) 68764 [68828] (LowerMap.node
  (LowerMap.node (LowerMap.node (LowerMap.node LowerMap.leaf 68765 [68829] LowerMap.leaf) 68766
  [68830] LowerMap.leaf) 68767 [68831] (LowerMap.node (LowerMap.node LowerMap.leaf 68768 [68832]
  LowerMap.leaf) 68769 [68833] LowerMap.leaf)) 68770 [68834] (LowerMap.node (LowerMap.node
  (LowerMap.node LowerMap.leaf 68771 [68835] LowerMap.leaf) 68772 [68836] LowerMap.leaf) 68773
  [68837] (LowerMap.node LowerMap.leaf 68774 [68838] LowerMap.leaf)))) 68775 [68839]
  (LowerMap.node (LowerMap.node (LowerMap.node (LowerMap.node (LowerMap.node LowerMap.leaf 68776
  [68840] LowerMap.leaf) 68777 [68841] LowerMap.leaf) 68778 [68842] (LowerMap.node (LowerMap.node
  LowerMap.leaf 68779 [68843] LowerMap.leaf) 68780 [68844] LowerMap.leaf)) 68781 [68845]
  (LowerMap.node (LowerMap.node (LowerMap.node LowerMap.leaf 68782 [68846] LowerMap.leaf) 68783
  [68847] LowerMap.leaf) 68784 [68848] (LowerMap.node LowerMap.leaf 68785 [68849] LowerMap.leaf)))
  68786 [68850] (LowerMap.node (LowerMap.node (LowerMap.node (LowerMap.node LowerMap.leaf 71840
  [71872] LowerMap.leaf) 71841 [71873] LowerMap.leaf) 71842 [71874] (LowerMap.node (LowerMap.node
  LowerMap.leaf 71843 [71875] LowerMap.leaf) 71844 [71876] LowerMap.leaf)) 71845 [71877]
  (LowerMap.node (LowerMap.node (LowerMap.node LowerMap.leaf 71846 [71878] LowerMap.leaf) 71847
  [71879] LowerMap.leaf) 71848 [71880] (LowerMap.node LowerMap.leaf 71849 [71881]
  LowerMap.leaf)))))) 71850 [71882] (LowerMap.node (LowerMap.node (LowerMap.node (LowerMap.node
  (LowerMap.node (LowerMap.node (LowerMap.node LowerMap.leaf 71851 [71883] LowerMap.leaf) 71852
  [71884] LowerMap.leaf) 71853 [71885] (LowerMap.node (LowerMap.node LowerMap.leaf 71854 [71886]
  LowerMap.leaf) 71855 [71887] LowerMap.leaf)) 71856 [71888] (LowerMap.node (LowerMap.node
  (LowerMap.node LowerMap.leaf 71857 [71889] LowerMap.leaf) 71858 [71890] LowerMap.leaf) 71859
  [71891] (LowerMap.node LowerMap.leaf 71860 [71892] LowerMap.leaf))) 71861 [71893] (LowerMap.node
  (LowerMap.node (LowerMap.node (LowerMap.node LowerMap.leaf 71862 [71894] LowerMap.leaf) 71863
  [71895] LowerMap.leaf) 71864 [71896] (LowerMap.node (LowerMap.node LowerMap.leaf 71865 [71897]
  LowerMap.leaf) 71866 [71898] LowerMap.leaf)) 71867 [71899] (LowerMap.node (LowerMap.node
  (LowerMap.node LowerMap.leaf 71868 [71900] LowerMap.leaf) 71869 [71901] LowerMap.leaf) 71870
  [71902] (LowerMap.node LowerMap.leaf 71871 [71903] LowerMap.leaf)))) 93760 [93792]
  (LowerMap.node (LowerMap.node (LowerMap.node (LowerMap.node (LowerMap.node LowerMap.leaf 93761
  [93793] LowerMap.leaf) 93762 [93794] LowerMap.leaf) 93763 [93795] (LowerMap.node (LowerMap.node
  LowerMap.leaf 93764 [93796] LowerMap.leaf) 93765 [93797] LowerMap.leaf)) 93766 [93798]
  (LowerMap.node (LowerMap.node (LowerMap.node LowerMap.leaf 93767 [93799] LowerMap.leaf) 93768
  [93800] LowerMap.leaf) 93769 [93801] (LowerMap.node LowerMap.leaf 93770 [93802] LowerMap.leaf)))
  93771 [93803] (LowerMap.node (LowerMap.node (LowerMap.node (LowerMap.node LowerMap.leaf 93772
  [93804] LowerMap.leaf) 93773 [93805] LowerMap.leaf) 93774 [93806] (LowerMap.node (LowerMap.node
  LowerMap.leaf 93775 [93807] LowerMap.leaf) 93776 [93808] LowerMap.leaf)) 93777 [93809]
  (LowerMap.node (LowerMap.node (LowerMap.node LowerMap.leaf 93778 [93810] LowerMap.leaf) 93779
  [93811] LowerMap.leaf) 93780 [93812] (LowerMap.node LowerMap.leaf 93781 [93813]
  LowerMap.leaf))))) 93782 [93814] (LowerMap.node (LowerMap.node (LowerMap.node (LowerMap.node
  (LowerMap.node (LowerMap.node LowerMap.leaf 93783 [93815] LowerMap.leaf) 93784 [93816]
  LowerMap.leaf) 93785 [93817] (LowerMap.node (LowerMap.node LowerMap.leaf 93786 [93818]
  LowerMap.leaf) 93787 [93819] LowerMap.leaf)) 93788 [93820] (LowerMap.node (LowerMap.node
  (LowerMap.node LowerMap.leaf 93789 [93821] LowerMap.leaf) 93790 [93822] LowerMap.leaf) 93791
  [93823] (LowerMap.node LowerMap.leaf 125184 [125218] LowerMap.leaf))) 125185 [125219]
  (LowerMap.node (LowerMap.node (LowerMap.node (LowerMap.node LowerMap.leaf 125186 [125220]
  LowerMap.leaf) 125187 [125221] LowerMap.leaf) 125188 [125222] (LowerMap.node (LowerMap.node
  LowerMap.leaf 125189 [125223] LowerMap.leaf) 125190 [125224] LowerMap.leaf)) 125191 [125225]
  (LowerMap.node (LowerMap.node (LowerMap.node LowerMap.leaf 125192 [125226] LowerMap.leaf) 125193
  [125227] LowerMap.leaf) 125194 [125228] (LowerMap.node LowerMap.leaf 125195 [125229]
  LowerMap.leaf)))) 125196 [125230] (LowerMap.node (LowerMap.node (LowerMap.node (LowerMap.node
  (LowerMap.node LowerMap.leaf 125197 [125231] LowerMap.leaf) 125198 [125232] LowerMap.leaf)
  125199 [125233] (LowerMap.node (LowerMap.node LowerMap.leaf 125200 [125234] LowerMap.leaf)
  125201 [125235] LowerMap.leaf)) 125202 [125236] (LowerMap.node (LowerMap.node (LowerMap.node
  LowerMap.leaf 125203 [125237] LowerMap.leaf) 125204 [125238] LowerMap.leaf) 125205 [125239]
  (LowerMap.node LowerMap.leaf 125206 [125240] LowerMap.leaf))) 125207 [125241] (LowerMap.node
  (LowerMap.node (LowerMap.node (LowerMap.node LowerMap.leaf 125208 [125242] LowerMap.leaf) 125209
  [125243] LowerMap.leaf) 125210 [125244] (LowerMap.node (LowerMap.node LowerMap.leaf 125211
  [125245] LowerMap.leaf) 125212 [125246] LowerMap.leaf)) 125213 [125247] (LowerMap.node
  (LowerMap.node (LowerMap.node LowerMap.leaf 125214 [125248] LowerMap.leaf) 125215 [125249]
  LowerMap.leaf) 125216 [125250] (LowerMap.node LowerMap.leaf 125217 [125251]
  LowerMap.leaf))))))))))

/-- A set of disjoint code-point ranges as a search tree, for the
character classes the Final_Sigma condition consults. -/
inductive RangeSet where
  | leaf : RangeSet
  | node : RangeSet → Nat → Nat → RangeSet → RangeSet

/-- Whether a code point lies in one of the ranges of a `RangeSet`. -/
def memRS : RangeSet → Nat → Bool
  | .leaf, _ => false
  | .node l lo hi r, n =>
    if n < lo then memRS l n else if hi < n then memRS r n else true

/-- The code-point ranges of CPython's `Cased` character class, which the
Final_Sigma context condition of `str.lower()` consults. -/
def casedRS : RangeSet :=
  (RangeSet.node (RangeSet.node (RangeSet.node (RangeSet.node (RangeSet.node (RangeSet.node
  (RangeSet.node (RangeSet.node RangeSet.leaf 65 90 RangeSet.leaf) 97 122 RangeSet.leaf) 170 170
  (RangeSet.node RangeSet.leaf 181 181 RangeSet.leaf)) 186 186 (RangeSet.node (RangeSet.node
  (RangeSet.node RangeSet.leaf 192 214 RangeSet.leaf) 216 246 RangeSet.leaf) 248 442
  (RangeSet.node RangeSet.leaf 444 447 RangeSet.leaf))) 452 659 (RangeSet.node (RangeSet.node
  (RangeSet.node (RangeSet.node RangeSet.leaf 661 687 RangeSet.leaf) 880 883 RangeSet.leaf) 886
  887 (RangeSet.node RangeSet.leaf 891 893 RangeSet.leaf)) 895 895 (RangeSet.node (RangeSet.node
  RangeSet.leaf 902 902 RangeSet.leaf) 904 906 (RangeSet.node RangeSet.leaf 908 908
  RangeSet.leaf)))) 910 929 (RangeSet.node (RangeSet.node (RangeSet.node (RangeSet.node
  (RangeSet.node RangeSet.leaf 931 1013 RangeSet.leaf) 1015 1153 RangeSet.leaf) 1162 1327
  (RangeSet.node RangeSet.leaf 1329 1366 RangeSet.leaf)) 1376 1416 (RangeSet.node (RangeSet.node
  (RangeSet.node RangeSet.leaf 4256 4293 RangeSet.leaf) 4295 4295 RangeSet.leaf) 4301 4301
  (RangeSet.node RangeSet.leaf 4304 4346 RangeSet.leaf))) 4349 4351 (RangeSet.node (RangeSet.node
  (RangeSet.node (RangeSet.node RangeSet.leaf 5024 5109 RangeSet.leaf) 5112 5117 RangeSet.leaf)
  7296 7304 (RangeSet.node RangeSet.leaf 7312 7354 RangeSet.leaf)) 7357 7359 (RangeSet.node
  (RangeSet.node RangeSet.leaf 7424 7467 RangeSet.leaf) 7531 7543 (RangeSet.node RangeSet.leaf
  7545 7578 RangeSet.leaf))))) 7680 7957 (RangeSet.node (RangeSet.node (RangeSet.node
  (RangeSet.node (RangeSet.node (RangeSet.node RangeSet.leaf 7960 7965 RangeSet.leaf) 7968 8005
  RangeSet.leaf) 8008 8013 (RangeSet.node RangeSet.leaf 8016 8023 RangeSet.leaf)) 8025 8025
  (RangeSet.node (RangeSet.node (RangeSet.node RangeSet.leaf 8027 8027 RangeSet.leaf) 8029 8029
  RangeSet.leaf) 8031 8061 (RangeSet.node RangeSet.leaf 8064 8116 RangeSet.leaf))) 8118 8124
  (RangeSet.node (RangeSet.node (RangeSet.node (RangeSet.node RangeSet.leaf 8126 8126
  RangeSet.leaf) 8130 8132 RangeSet.leaf) 8134 8140 (RangeSet.node RangeSet.leaf 8144 8147
  RangeSet.leaf)) 8150 8155 (RangeSet.node (RangeSet.node RangeSet.leaf 8160 8172 RangeSet.leaf)
  8178 8180 (RangeSet.node RangeSet.leaf 8182 8188 RangeSet.leaf)))) 8450 8450 (RangeSet.node
  (RangeSet.node (RangeSet.node (RangeSet.node (RangeSet.node RangeSet.leaf 8455 8455
  RangeSet.leaf) 8458 8467 RangeSet.leaf) 8469 8469 (RangeSet.node RangeSet.leaf 8473 8477
  RangeSet.leaf)) 8484 8484 (RangeSet.node (RangeSet.node RangeSet.leaf 8486 8486 RangeSet.leaf)
  8488 8488 (RangeSet.node RangeSet.leaf 8490 8493 RangeSet.leaf))) 8495 8500 (RangeSet.node
  (RangeSet.node (RangeSet.node (RangeSet.node RangeSet.leaf 8505 8505 RangeSet.leaf) 8508 8511
  RangeSet.leaf) 8517 8521 (RangeSet.node RangeSet.leaf 8526 8526 RangeSet.leaf)) 8544 8575
  (RangeSet.node (RangeSet.node RangeSet.leaf 8579 8580 RangeSet.leaf) 9398 9449 (RangeSet.node
  RangeSet.leaf 11264 11387 RangeSet.leaf)))))) 11390 11492 (RangeSet.node (RangeSet.node
  (RangeSet.node (RangeSet.node (RangeSet.node (RangeSet.node (RangeSet.node RangeSet.leaf 11499
  11502 RangeSet.leaf) 11506 11507 RangeSet.leaf) 11520 11557 (RangeSet.node RangeSet.leaf 11559
  11559 RangeSet.leaf)) 11565 11565 (RangeSet.node (RangeSet.node (RangeSet.node RangeSet.leaf
  42560 42605 RangeSet.leaf) 42624 42651 RangeSet.leaf) 42786 42863 (RangeSet.node RangeSet.leaf
  42865 42887 RangeSet.leaf))) 42891 42894 (RangeSet.node (RangeSet.node (RangeSet.node
  (RangeSet.node RangeSet.leaf 42896 42954 RangeSet.leaf) 42960 42961 RangeSet.leaf) 42963 42963
  (RangeSet.node RangeSet.leaf 42965 42969 RangeSet.leaf)) 42997 42998 (RangeSet.node
  (RangeSet.node RangeSet.leaf 43002 43002 RangeSet.leaf) 43824 43866 (RangeSet.node RangeSet.leaf
  43872 43880 RangeSet.leaf)))) 43888 43967 (RangeSet.node (RangeSet.node (RangeSet.node
  (RangeSet.node (RangeSet.node RangeSet.leaf 64256 64262 RangeSet.leaf) 64275 64279
  RangeSet.leaf) 65313 65338 (RangeSet.node RangeSet.leaf 65345 65370 RangeSet.leaf)) 66560 66639
  (RangeSet.node (RangeSet.node (RangeSet.node RangeSet.leaf 66736 66771 RangeSet.leaf) 66776
  66811 RangeSet.leaf) 66928 66938 (RangeSet.node RangeSet.leaf 66940 66954 RangeSet.leaf))) 66956
  66962 (RangeSet.node (RangeSet.node (RangeSet.node (RangeSet.node RangeSet.leaf 66964 66965
  RangeSet.leaf) 66967 66977 RangeSet.leaf) 66979 66993 (RangeSet.node RangeSet.leaf 66995 67001
  RangeSet.leaf)) 67003 67004 (RangeSet.node (RangeSet.node RangeSet.leaf 68736 68786
  RangeSet.leaf) 68800 68850 (RangeSet.node RangeSet.leaf 71840 71903 RangeSet.leaf))))) 93760
  93823 (RangeSet.node (RangeSet.node (RangeSet.node (RangeSet.node (RangeSet.node (RangeSet.node
  RangeSet.leaf 119808 119892 RangeSet.leaf) 119894 119964 RangeSet.leaf) 119966 119967
  (RangeSet.node RangeSet.leaf 119970 119970 RangeSet.leaf)) 119973 119974 (RangeSet.node
  (RangeSet.node (RangeSet.node RangeSet.leaf 119977 119980 RangeSet.leaf) 119982 119993
  RangeSet.leaf) 119995 119995 (RangeSet.node RangeSet.leaf 119997 120003 RangeSet.leaf))) 120005
  120069 (RangeSet.node (RangeSet.node (RangeSet.node (RangeSet.node RangeSet.leaf 120071 120074
  RangeSet.leaf) 120077 120084 RangeSet.leaf) 120086 120092 (RangeSet.node RangeSet.leaf 120094
  120121 RangeSet.leaf)) 120123 120126 (RangeSet.node (RangeSet.node RangeSet.leaf 120128 120132
  RangeSet.leaf) 120134 120134 (RangeSet.node RangeSet.leaf 120138 120144 RangeSet.leaf)))) 120146
  120485 (RangeSet.node (RangeSet.node (RangeSet.node (RangeSet.node (RangeSet.node RangeSet.leaf
  120488 120512 RangeSet.leaf) 120514 120538 RangeSet.leaf) 120540 120570 (RangeSet.node
  RangeSet.leaf 120572 120596 RangeSet.leaf)) 120598 120628 (RangeSet.node (RangeSet.node
  RangeSet.leaf 120630 120654 RangeSet.leaf) 120656 120686 (RangeSet.node RangeSet.leaf 120688
  120712 RangeSet.leaf))) 120714 120744 (RangeSet.node (RangeSet.node (RangeSet.node
  (RangeSet.node RangeSet.leaf 120746 120770 RangeSet.leaf) 120772 120779 RangeSet.leaf) 122624
  122633 (RangeSet.node RangeSet.leaf 122635 122654 RangeSet.leaf)) 125184 125251 (RangeSet.node
  (RangeSet.node RangeSet.leaf 127280 127305 RangeSet.leaf) 127312 127337 (RangeSet.node
  RangeSet.leaf 127344 127369 RangeSet.leaf)))))))

/-- The code-point ranges of CPython's `Case_Ignorable` character class,
which the Final_Sigma context condition of `str.lower()` skips over. -/
def caseIgnorableRS : RangeSet :=
  (RangeSet.node (RangeSet.node (RangeSet.node (RangeSet.node (RangeSet.node (RangeSet.node
  (RangeSet.node (RangeSet.node (RangeSet.node RangeSet.leaf 39 39 RangeSet.leaf) 46 46
  (RangeSet.node RangeSet.leaf 58 58 RangeSet.leaf)) 94 94 (RangeSet.node (RangeSet.node
  RangeSet.leaf 96 96 RangeSet.leaf) 168 168 RangeSet.leaf)) 173 173 (RangeSet.node (RangeSet.node
  (RangeSet.node RangeSet.leaf 175 175 RangeSet.leaf) 180 180 (RangeSet.node RangeSet.leaf 183 184
  RangeSet.leaf)) 688 879 (RangeSet.node (RangeSet.node RangeSet.leaf 884 885 RangeSet.leaf) 890
  890 RangeSet.leaf))) 900 901 (RangeSet.node (RangeSet.node (RangeSet.node (RangeSet.node
  RangeSet.leaf 903 903 RangeSet.leaf) 1155 1161 (RangeSet.node RangeSet.leaf 1369 1369
  RangeSet.leaf)) 1375 1375 (RangeSet.node (RangeSet.node RangeSet.leaf 1425 1469 RangeSet.leaf)
  1471 1471 RangeSet.leaf)) 1473 1474 (RangeSet.node (RangeSet.node (RangeSet.node RangeSet.leaf
  1476 1477 RangeSet.leaf) 1479 1479 RangeSet.leaf) 1524 1524 (RangeSet.node (RangeSet.node
  RangeSet.leaf 1536 1541 RangeSet.leaf) 1552 1562 RangeSet.leaf)))) 1564 1564 (RangeSet.node
  (RangeSet.node (RangeSet.node (RangeSet.node (RangeSet.node RangeSet.leaf 1600 1600
  RangeSet.leaf) 1611 1631 (RangeSet.node RangeSet.leaf 1648 1648 RangeSet.leaf)) 1750 1757
  (RangeSet.node (RangeSet.node RangeSet.leaf 1759 1768 RangeSet.leaf) 1770 1773 RangeSet.leaf))
  1807 1807 (RangeSet.node (RangeSet.node (RangeSet.node RangeSet.leaf 1809 1809 RangeSet.leaf)
  1840 1866 (RangeSet.node RangeSet.leaf 1958 1968 RangeSet.leaf)) 2027 2037 (RangeSet.node
  (RangeSet.node RangeSet.leaf 2042 2042 RangeSet.leaf) 2045 2045 RangeSet.leaf))) 2070 2093
  (RangeSet.node (RangeSet.node (RangeSet.node (RangeSet.node RangeSet.leaf 2137 2139
  RangeSet.leaf) 2184 2184 (RangeSet.node RangeSet.leaf 2192 2193 RangeSet.leaf)) 2200 2207
  (RangeSet.node (RangeSet.node RangeSet.leaf 2249 2306 RangeSet.leaf) 2362 2362 RangeSet.leaf))
  2364 2364 (RangeSet.node (RangeSet.node (RangeSet.node RangeSet.leaf 2369 2376 RangeSet.leaf)
  2381 2381 RangeSet.leaf) 2385 2391 (RangeSet.node (RangeSet.node RangeSet.leaf 2402 2403
  RangeSet.leaf) 2417 2417 RangeSet.leaf))))) 2433 2433 (RangeSet.node (RangeSet.node
  (RangeSet.node (RangeSet.node (RangeSet.node (RangeSet.node RangeSet.leaf 2492 2492
  RangeSet.leaf) 2497 2500 (RangeSet.node RangeSet.leaf 2509 2509 RangeSet.leaf)) 2530 2531
  (RangeSet.node (RangeSet.node RangeSet.leaf 2558 2558 RangeSet.leaf) 2561 2562 RangeSet.leaf))
  2620 2620 (RangeSet.node (RangeSet.node (RangeSet.node RangeSet.leaf 2625 2626 RangeSet.leaf)
  2631 2632 (RangeSet.node RangeSet.leaf 2635 2637 RangeSet.leaf)) 2641 2641 (RangeSet.node
  (RangeSet.node RangeSet.leaf 2672 2673 RangeSet.leaf) 2677 2677 RangeSet.leaf))) 2689 2690
  (RangeSet.node (RangeSet.node (RangeSet.node (RangeSet.node RangeSet.leaf 2748 2748
  RangeSet.leaf) 2753 2757 (RangeSet.node RangeSet.leaf 2759 2760 RangeSet.leaf)) 2765 2765
  (RangeSet.node (RangeSet.node RangeSet.leaf 2786 2787 RangeSet.leaf) 2810 2815 RangeSet.leaf))
  2817 2817 (RangeSet.node (RangeSet.node (RangeSet.node RangeSet.leaf 2876 2876 RangeSet.leaf)
  2879 2879 RangeSet.leaf) 2881 2884 (RangeSet.node (RangeSet.node RangeSet.leaf 2893 2893
  RangeSet.leaf) 2901 2902 RangeSet.leaf)))) 2914 2915 (RangeSet.node (RangeSet.node
  (RangeSet.node (RangeSet.node (RangeSet.node RangeSet.leaf 2946 2946 RangeSet.leaf) 3008 3008
  (RangeSet.node RangeSet.leaf 3021 3021 RangeSet.leaf)) 3072 3072 (RangeSet.node (RangeSet.node
  RangeSet.leaf 3076 3076 RangeSet.leaf) 3132 3132 RangeSet.leaf)) 3134 3136 (RangeSet.node
  (RangeSet.node (RangeSet.node RangeSet.leaf 3142 3144 RangeSet.leaf) 3146 3149 RangeSet.leaf)
  3157 3158 (RangeSet.node (RangeSet.node RangeSet.leaf 3170 3171 RangeSet.leaf) 3201 3201
  RangeSet.leaf))) 3260 3260 (RangeSet.node (RangeSet.node (RangeSet.node (RangeSet.node
  RangeSet.leaf 3263 3263 RangeSet.leaf) 3270 3270 (RangeSet.node RangeSet.leaf 3276 3277
  RangeSet.leaf)) 3298 3299 (RangeSet.node (RangeSet.node RangeSet.leaf 3328 3329 RangeSet.leaf)
  3387 3388 RangeSet.leaf)) 3393 3396 (RangeSet.node (RangeSet.node (RangeSet.node RangeSet.leaf
  3405 3405 RangeSet.leaf) 3426 3427 RangeSet.leaf) 3457 3457 (RangeSet.node (RangeSet.node
  RangeSet.leaf 3530 3530 RangeSet.leaf) 3538 3540 RangeSet.leaf)))))) 3542 3542 (RangeSet.node
  (RangeSet.node (RangeSet.node (RangeSet.node (RangeSet.node (RangeSet.node (RangeSet.node
  RangeSet.leaf 3633 3633 RangeSet.leaf) 3636 3642 (RangeSet.node RangeSet.leaf 3654 3662
  RangeSet.leaf)) 3761 3761 (RangeSet.node (RangeSet.node RangeSet.leaf 3764 3772 RangeSet.leaf)
  3782 3782 RangeSet.leaf)) 3784 3789 (RangeSet.node (RangeSet.node (RangeSet.node RangeSet.leaf
  3864 3865 RangeSet.leaf) 3893 3893 (RangeSet.node RangeSet.leaf 3895 3895 RangeSet.leaf)) 3897
  3897 (RangeSet.node (RangeSet.node RangeSet.leaf 3953 3966 RangeSet.leaf) 3968 3972
  RangeSet.leaf))) 3974 3975 (RangeSet.node (RangeSet.node (RangeSet.node (RangeSet.node
  RangeSet.leaf 3981 3991 RangeSet.leaf) 3993 4028 (RangeSet.node RangeSet.leaf 4038 4038
  RangeSet.leaf)) 4141 4144 (RangeSet.node (RangeSet.node RangeSet.leaf 4146 4151 RangeSet.leaf)
  4153 4154 RangeSet.leaf)) 4157 4158 (RangeSet.node (RangeSet.node (RangeSet.node RangeSet.leaf
  4184 4185 RangeSet.leaf) 4190 4192 RangeSet.leaf) 4209 4212 (RangeSet.node (RangeSet.node
  RangeSet.leaf 4226 4226 RangeSet.leaf) 4229 4230 RangeSet.leaf)))) 4237 4237 (RangeSet.node
  (RangeSet.node (RangeSet.node (RangeSet.node (RangeSet.node RangeSet.leaf 4253 4253
  RangeSet.leaf) 4348 4348 (RangeSet.node RangeSet.leaf 4957 4959 RangeSet.leaf)) 5906 5908
  (RangeSet.node (RangeSet.node RangeSet.leaf 5938 5939 RangeSet.leaf) 5970 5971 RangeSet.leaf))
  6002 6003 (RangeSet.node (RangeSet.node (RangeSet.node RangeSet.leaf 6068 6069 RangeSet.leaf)
  6071 6077 (RangeSet.node RangeSet.leaf 6086 6086 RangeSet.leaf)) 6089 6099 (RangeSet.node
  (RangeSet.node RangeSet.leaf 6103 6103 RangeSet.leaf) 6109 6109 RangeSet.leaf))) 6155 6159
  (RangeSet.node (RangeSet.node (RangeSet.node (RangeSet.node RangeSet.leaf 6211 6211
  RangeSet.leaf) 6277 6278 (RangeSet.node RangeSet.leaf 6313 6313 RangeSet.leaf)) 6432 6434
  (RangeSet.node (RangeSet.node RangeSet.leaf 6439 6440 RangeSet.leaf) 6450 6450 RangeSet.leaf))
  6457 6459 (RangeSet.node (RangeSet.node (RangeSet.node RangeSet.leaf 6679 6680 RangeSet.leaf)
  6683 6683 RangeSet.leaf) 6742 6742 (RangeSet.node (RangeSet.node RangeSet.leaf 6744 6750
  RangeSet.leaf) 6752 6752 RangeSet.leaf))))) 6754 6754 (RangeSet.node (RangeSet.node
  (RangeSet.node (RangeSet.node (RangeSet.node (RangeSet.node RangeSet.leaf 6757 6764
  RangeSet.leaf) 6771 6780 (RangeSet.node RangeSet.leaf 6783 6783 RangeSet.leaf)) 6823 6823
  (RangeSet.node (RangeSet.node RangeSet.leaf 6832 6862 RangeSet.leaf) 6912 6915 RangeSet.leaf))
  6964 6964 (RangeSet.node (RangeSet.node (RangeSet.node RangeSet.leaf 6966 6970 RangeSet.leaf)
  6972 6972 (RangeSet.node RangeSet.leaf 6978 6978 RangeSet.leaf)) 7019 7027 (RangeSet.node
  (RangeSet.node RangeSet.leaf 7040 7041 RangeSet.leaf) 7074 7077 RangeSet.leaf))) 7080 7081
  (RangeSet.node (RangeSet.node (RangeSet.node (RangeSet.node RangeSet.leaf 7083 7085
  RangeSet.leaf) 7142 7142 (RangeSet.node RangeSet.leaf 7144 7145 RangeSet.leaf)) 7149 7149
  (RangeSet.node (RangeSet.node RangeSet.leaf 7151 7153 RangeSet.leaf) 7212 7219 RangeSet.leaf))
  7222 7223 (RangeSet.node (RangeSet.node (RangeSet.node RangeSet.leaf 7288 7293 RangeSet.leaf)
  7376 7378 RangeSet.leaf) 7380 7392 (RangeSet.node (RangeSet.node RangeSet.leaf 7394 7400
  RangeSet.leaf) 7405 7405 RangeSet.leaf)))) 7412 7412 (RangeSet.node (RangeSet.node
  (RangeSet.node (RangeSet.node (RangeSet.node RangeSet.leaf 7416 7417 RangeSet.leaf) 7468 7530
  (RangeSet.node RangeSet.leaf 7544 7544 RangeSet.leaf)) 7579 7679 (RangeSet.node (RangeSet.node
  RangeSet.leaf 8125 8125 RangeSet.leaf) 8127 8129 RangeSet.leaf)) 8141 8143 (RangeSet.node
  (RangeSet.node (RangeSet.node RangeSet.leaf 8157 8159 RangeSet.leaf) 8173 8175 RangeSet.leaf)
  8189 8190 (RangeSet.node (RangeSet.node RangeSet.leaf 8203 8207 RangeSet.leaf) 8216 8217
  RangeSet.leaf))) 8228 8228 (RangeSet.node (RangeSet.node (RangeSet.node (RangeSet.node
  RangeSet.leaf 8231 8231 RangeSet.leaf) 8234 8238 (RangeSet.node RangeSet.leaf 8288 8292
  RangeSet.leaf)) 8294 8303 (RangeSet.node (RangeSet.node RangeSet.leaf 8305 8305 RangeSet.leaf)
  8319 8319 RangeSet.leaf)) 8336 8348 (RangeSet.node (RangeSet.node (RangeSet.node RangeSet.leaf
  8400 8432 RangeSet.leaf) 11388 11389 RangeSet.leaf) 11503 11505 (RangeSet.node (RangeSet.node
  RangeSet.leaf 11631 11631 RangeSet.leaf) 11647 11647 RangeSet.leaf))))))) 11744 11775
  (RangeSet.node (RangeSet.node (RangeSet.node (RangeSet.node (RangeSet.node (RangeSet.node
  (RangeSet.node (RangeSet.node RangeSet.leaf 11823 11823 RangeSet.leaf) 12293 12293
  (RangeSet.node RangeSet.leaf 12330 12333 RangeSet.leaf)) 12337 12341 (RangeSet.node
  (RangeSet.node RangeSet.leaf 12347 12347 RangeSet.leaf) 12441 12446 RangeSet.leaf)) 12540 12542
  (RangeSet.node (RangeSet.node (RangeSet.node RangeSet.leaf 40981 40981 RangeSet.leaf) 42232
  42237 (RangeSet.node RangeSet.leaf 42508 42508 RangeSet.leaf)) 42607 42610 (RangeSet.node
  (RangeSet.node RangeSet.leaf 42612 42621 RangeSet.leaf) 42623 42623 RangeSet.leaf))) 42652 42655
  (RangeSet.node (RangeSet.node (RangeSet.node (RangeSet.node RangeSet.leaf 42736 42737
  RangeSet.leaf) 42752 42785 (RangeSet.node RangeSet.leaf 42864 42864 RangeSet.leaf)) 42888 42890
  (RangeSet.node (RangeSet.node RangeSet.leaf 42994 42996 RangeSet.leaf) 43000 43001
  RangeSet.leaf)) 43010 43010 (RangeSet.node (RangeSet.node (RangeSet.node RangeSet.leaf 43014
  43014 RangeSet.leaf) 43019 43019 RangeSet.leaf) 43045 43046 (RangeSet.node (RangeSet.node
  RangeSet.leaf 43052 43052 RangeSet.leaf) 43204 43205 RangeSet.leaf)))) 43232 43249
  (RangeSet.node (RangeSet.node (RangeSet.node (RangeSet.node (RangeSet.node RangeSet.leaf 43263
  43263 RangeSet.leaf) 43302 43309 (RangeSet.node RangeSet.leaf 43335 43345 RangeSet.leaf)) 43392
  43394 (RangeSet.node (RangeSet.node RangeSet.leaf 43443 43443 RangeSet.leaf) 43446 43449
  RangeSet.leaf)) 43452 43453 (RangeSet.node (RangeSet.node (RangeSet.node RangeSet.leaf 43471
  43471 RangeSet.leaf) 43493 43494 (RangeSet.node RangeSet.leaf 43561 43566 RangeSet.leaf)) 43569
  43570 (RangeSet.node (RangeSet.node RangeSet.leaf 43573 43574 RangeSet.leaf) 43587 43587
  RangeSet.leaf))) 43596 43596 (RangeSet.node (RangeSet.node (RangeSet.node (RangeSet.node
  RangeSet.leaf 43632 43632 RangeSet.leaf) 43644 43644 (RangeSet.node RangeSet.leaf 43696 43696
  RangeSet.leaf)) 43698 43700 (RangeSet.node (RangeSet.node RangeSet.leaf 43703 43704
  RangeSet.leaf) 43710 43711 RangeSet.leaf)) 43713 43713 (RangeSet.node (RangeSet.node
  (RangeSet.node RangeSet.leaf 43741 43741 RangeSet.leaf) 43756 43757 RangeSet.leaf) 43763 43764
  (RangeSet.node (RangeSet.node RangeSet.leaf 43766 43766 RangeSet.leaf) 43867 43871
  RangeSet.leaf))))) 43881 43883 (RangeSet.node (RangeSet.node (RangeSet.node (RangeSet.node
  (RangeSet.node (RangeSet.node RangeSet.leaf 44005 44005 RangeSet.leaf) 44008 44008
  (RangeSet.node RangeSet.leaf 44013 44013 RangeSet.leaf)) 64286 64286 (RangeSet.node
  (RangeSet.node RangeSet.leaf 64434 64450 RangeSet.leaf) 65024 65039 RangeSet.leaf)) 65043 65043
  (RangeSet.node (RangeSet.node (RangeSet.node RangeSet.leaf 65056 65071 RangeSet.leaf) 65106
  65106 (RangeSet.node RangeSet.leaf 65109 65109 RangeSet.leaf)) 65279 65279 (RangeSet.node
  (RangeSet.node RangeSet.leaf 65287 65287 RangeSet.leaf) 65294 65294 RangeSet.leaf))) 65306 65306
  (RangeSet.node (RangeSet.node (RangeSet.node (RangeSet.node RangeSet.leaf 65342 65342
  RangeSet.leaf) 65344 65344 (RangeSet.node RangeSet.leaf 65392 65392 RangeSet.leaf)) 65438 65439
  (RangeSet.node (RangeSet.node RangeSet.leaf 65507 65507 RangeSet.leaf) 65529 65531
  RangeSet.leaf)) 66045 66045 (RangeSet.node (RangeSet.node (RangeSet.node RangeSet.leaf 66272
  66272 RangeSet.leaf) 66422 66426 RangeSet.leaf) 67456 67461 (RangeSet.node (RangeSet.node
  RangeSet.leaf 67463 67504 RangeSet.leaf) 67506 67514 RangeSet.leaf)))) 68097 68099
  (RangeSet.node (RangeSet.node (RangeSet.node (RangeSet.node (RangeSet.node RangeSet.leaf 68101
  68102 RangeSet.leaf) 68108 68111 (RangeSet.node RangeSet.leaf 68152 68154 RangeSet.leaf)) 68159
  68159 (RangeSet.node (RangeSet.node RangeSet.leaf 68325 68326 RangeSet.leaf) 68900 68903
  RangeSet.leaf)) 69291 69292 (RangeSet.node (RangeSet.node (RangeSet.node RangeSet.leaf 69446
  69456 RangeSet.leaf) 69506 69509 RangeSet.leaf) 69633 69633 (RangeSet.node (RangeSet.node
  RangeSet.leaf 69688 69702 RangeSet.leaf) 69744 69744 RangeSet.leaf))) 69747 69748 (RangeSet.node
  (RangeSet.node (RangeSet.node (RangeSet.node RangeSet.leaf 69759 69761 RangeSet.leaf) 69811
  69814 (RangeSet.node RangeSet.leaf 69817 69818 RangeSet.leaf)) 69821 69821 (RangeSet.node
  (RangeSet.node RangeSet.leaf 69826 69826 RangeSet.leaf) 69837 69837 RangeSet.leaf)) 69888 69890
  (RangeSet.node (RangeSet.node (RangeSet.node RangeSet.leaf 69927 69931 RangeSet.leaf) 69933
  69940 RangeSet.leaf) 70003 70003 (RangeSet.node (RangeSet.node RangeSet.leaf 70016 70017
  RangeSet.leaf) 70070 70078 RangeSet.leaf)))))) 70089 70092 (RangeSet.node (RangeSet.node
  (RangeSet.node (RangeSet.node (RangeSet.node (RangeSet.node (RangeSet.node RangeSet.leaf 70095
  70095 RangeSet.leaf) 70191 70193 (RangeSet.node RangeSet.leaf 70196 70196 RangeSet.leaf)) 70198
  70199 (RangeSet.node (RangeSet.node RangeSet.leaf 70206 70206 RangeSet.leaf) 70367 70367
  RangeSet.leaf)) 70371 70378 (RangeSet.node (RangeSet.node (RangeSet.node RangeSet.leaf 70400
  70401 RangeSet.leaf) 70459 70460 (RangeSet.node RangeSet.leaf 70464 70464 RangeSet.leaf)) 70502
  70508 (RangeSet.node (RangeSet.node RangeSet.leaf 70512 70516 RangeSet.leaf) 70712 70719
  RangeSet.leaf))) 70722 70724 (RangeSet.node (RangeSet.node (RangeSet.node (RangeSet.node
  RangeSet.leaf 70726 70726 RangeSet.leaf) 70750 70750 (RangeSet.node RangeSet.leaf 70835 70840
  RangeSet.leaf)) 70842 70842 (RangeSet.node (RangeSet.node RangeSet.leaf 70847 70848
  RangeSet.leaf) 70850 70851 RangeSet.leaf)) 71090 71093 (RangeSet.node (RangeSet.node
  (RangeSet.node RangeSet.leaf 71100 71101 RangeSet.leaf) 71103 71104 RangeSet.leaf) 71132 71133
  (RangeSet.node (RangeSet.node RangeSet.leaf 71219 71226 RangeSet.leaf) 71229 71229
  RangeSet.leaf)))) 71231 71232 (RangeSet.node (RangeSet.node (RangeSet.node (RangeSet.node
  (RangeSet.node RangeSet.leaf 71339 71339 RangeSet.leaf) 71341 71341 (RangeSet.node RangeSet.leaf
  71344 71349 RangeSet.leaf)) 71351 71351 (RangeSet.node (RangeSet.node RangeSet.leaf 71453 71455
  RangeSet.leaf) 71458 71461 RangeSet.leaf)) 71463 71467 (RangeSet.node (RangeSet.node
  (RangeSet.node RangeSet.leaf 71727 71735 RangeSet.leaf) 71737 71738 (RangeSet.node RangeSet.leaf
  71995 71996 RangeSet.leaf)) 71998 71998 (RangeSet.node (RangeSet.node RangeSet.leaf 72003 72003
  RangeSet.leaf) 72148 72151 RangeSet.leaf))) 72154 72155 (RangeSet.node (RangeSet.node
  (RangeSet.node (RangeSet.node RangeSet.leaf 72160 72160 RangeSet.leaf) 72193 72202
  (RangeSet.node RangeSet.leaf 72243 72248 RangeSet.leaf)) 72251 72254 (RangeSet.node
  (RangeSet.node RangeSet.leaf 72263 72263 RangeSet.leaf) 72273 72278 RangeSet.leaf)) 72281 72283
  (RangeSet.node (RangeSet.node (RangeSet.node RangeSet.leaf 72330 72342 RangeSet.leaf) 72344
  72345 RangeSet.leaf) 72752 72758 (RangeSet.node (RangeSet.node RangeSet.leaf 72760 72765
  RangeSet.leaf) 72767 72767 RangeSet.leaf))))) 72850 72871 (RangeSet.node (RangeSet.node
  (RangeSet.node (RangeSet.node (RangeSet.node (RangeSet.node RangeSet.leaf 72874 72880
  RangeSet.leaf) 72882 72883 (RangeSet.node RangeSet.leaf 72885 72886 RangeSet.leaf)) 73009 73014
  (RangeSet.node (RangeSet.node RangeSet.leaf 73018 73018 RangeSet.leaf) 73020 73021
  RangeSet.leaf)) 73023 73029 (RangeSet.node (RangeSet.node (RangeSet.node RangeSet.leaf 73031
  73031 RangeSet.leaf) 73104 73105 (RangeSet.node RangeSet.leaf 73109 73109 RangeSet.leaf)) 73111
  73111 (RangeSet.node (RangeSet.node RangeSet.leaf 73459 73460 RangeSet.leaf) 78896 78904
  RangeSet.leaf))) 92912 92916 (RangeSet.node (RangeSet.node (RangeSet.node (RangeSet.node
  RangeSet.leaf 92976 92982 RangeSet.leaf) 92992 92995 (RangeSet.node RangeSet.leaf 94031 94031
  RangeSet.leaf)) 94095 94111 (RangeSet.node (RangeSet.node RangeSet.leaf 94176 94177
  RangeSet.leaf) 94179 94180 RangeSet.leaf)) 110576 110579 (RangeSet.node (RangeSet.node
  (RangeSet.node RangeSet.leaf 110581 110587 RangeSet.leaf) 110589 110590 RangeSet.leaf) 113821
  113822 (RangeSet.node (RangeSet.node RangeSet.leaf 113824 113827 RangeSet.leaf) 118528 118573
  RangeSet.leaf)))) 118576 118598 (RangeSet.node (RangeSet.node (RangeSet.node (RangeSet.node
  (RangeSet.node RangeSet.leaf 119143 119145 RangeSet.leaf) 119155 119170 (RangeSet.node
  RangeSet.leaf 119173 119179 RangeSet.leaf)) 119210 119213 (RangeSet.node (RangeSet.node
  RangeSet.leaf 119362 119364 RangeSet.leaf) 121344 121398 RangeSet.leaf)) 121403 121452
  (RangeSet.node (RangeSet.node (RangeSet.node RangeSet.leaf 121461 121461 RangeSet.leaf) 121476
  121476 RangeSet.leaf) 121499 121503 (RangeSet.node (RangeSet.node RangeSet.leaf 121505 121519
  RangeSet.leaf) 122880 122886 RangeSet.leaf))) 122888 122904 (RangeSet.node (RangeSet.node
  (RangeSet.node (RangeSet.node RangeSet.leaf 122907 122913 RangeSet.leaf) 122915 122916
  (RangeSet.node RangeSet.leaf 122918 122922 RangeSet.leaf)) 123184 123197 (RangeSet.node
  (RangeSet.node RangeSet.leaf 123566 123566 RangeSet.leaf) 123628 123631 RangeSet.leaf)) 125136
  125142 (RangeSet.node (RangeSet.node (RangeSet.node RangeSet.leaf 125252 125259 RangeSet.leaf)
  127995 127999 RangeSet.leaf) 917505 917505 (RangeSet.node (RangeSet.node RangeSet.leaf 917536
  917631 RangeSet.leaf) 917760 917999 RangeSet.leaf))))))))

/-- The decidable per-entry sanity condition on the lowercase table: the
code point is at or above 0xC0 and maps to a non-empty list of valid code
points, none of which is the slash, the capital sigma, an uppercase ASCII
letter, or itself a mapped code point. -/
def entryOk (k : Nat) (v : List Nat) : Bool :=
  decide (0xC0 ≤ k ∧ v ≠ [] ∧ ∀ n ∈ v, n.isValidChar ∧ n ≠ 47 ∧
    n ≠ 0x3A3 ∧ (n < 0xC0 → ¬(65 ≤ n ∧ n ≤ 90)) ∧
    (0xC0 ≤ n → findLM lowerMap n = Option.none))

/-- Whether a character is in CPython's `Cased` class. -/
def isCased (c : Char) : Bool :=
  memRS casedRS c.toNat

/-- Whether a character is in CPython's `Case_Ignorable` class. -/
def isCaseIgnorable (c : Char) : Bool :=
  memRS caseIgnorableRS c.toNat

/-- The context-free lowercase mapping of one character, as `str.lower()`
applies it to every character other than a capital sigma in final position:
A-Z map to a-z, other code points are looked up in the Unicode lowercase
table, and an unmapped character is left unchanged. -/
def lowerChar (c : Char) : List Char :=
  if c.toNat < 0xC0 then
    if 65 ≤ c.toNat ∧ c.toNat ≤ 90 then [Char.ofNat (c.toNat + 32)] else [c]
  else
    match findLM lowerMap c.toNat with
    | some outs => outs.map Char.ofNat
    | Option.none => [c]

/-- The Final_Sigma context condition of `str.lower()`, from CPython's
`handle_capital_sigma`: looking backward over the original text (here the
reversed prefix `before`), skip `Case_Ignorable` characters and require a
`Cased` one; looking forward (`after`), skip `Case_Ignorable` characters and
require no `Cased` one. -/
def finalSigma (before after : List Char) : Bool :=
  (match (before.dropWhile isCaseIgnorable).head? with
   | some c => isCased c
   | Option.none => false) &&
  (match (after.dropWhile isCaseIgnorable).head? with
   | some c => !isCased c
   | Option.none => true)

/-- One pass of `str.lower()` over the characters: `before` is the reversed
prefix of the original text already processed.  A capital sigma in final
position lowers to the final sigma U+03C2; every other character lowers by
its table mapping. -/
def pyLowerAux : List Char → List Char → List Char
  | _, [] => []
  | before, c :: rest =>
    (if c = 'Σ' then
      (if finalSigma before rest then ['ς'] else lowerChar c)
     else lowerChar c) ++ pyLowerAux (c :: before) rest

/-- Python `str.lower()`: the full Unicode lowercasing CPython performs,
including the Final_Sigma contextual rule for the capital sigma. -/
def pyLower (s : String) : String :=
  ⟨pyLowerAux [] s.data⟩

/-- A character that lowercasing leaves alone, in any context: its table
mapping is the identity and it is not the capital sigma. -/
def lowerFixed (d : Char) : Prop :=
  lowerChar d = [d] ∧ d ≠ 'Σ'

/-- `Command` from `command_processor.py`: name (already normalized), the
argument tokens, and the complete original body text. -/
structure Command where
  name : String
  args : List String
  raw_text : String
deriving DecidableEq, Repr

/-- `normalize_command_name` from `command_processor.py`:
`name.strip().lstrip("/").lower()`. -/
def normalize_command_name (name : String) : String :=
  pyLower ⟨(pyStrip name).data.dropWhile (fun c => c = '/')⟩

/-- `parse_command` from `command_processor.py`, branch for branch:
empty body → `none`; strip the whole body; take the first line of the
stripped text and strip it; whitespace-split it into tokens; the first token,
normalized, is the name (if the normalization is empty → `none`), the rest
are the args; the returned `Command` carries the original `body_text`. -/
def parse_command (body_text : String) : Option Command :=
  if body_text = "" then none
  else
    let stripped := pyStrip body_text
    if stripped = "" then none
    else
      let first_line := pyStrip (pyFirstLine stripped)
      if first_line = "" then none
      else
        match pySplit first_line with
        | [] => none
        | raw_name :: args =>
          let normalized_name := normalize_command_name raw_name
          if normalized_name = "" then none
          else some ⟨normalized_name, args, body_text⟩

/-- A Python value, as far as the dispatch mechanism can observe one:
handler arguments are strings, handler results are arbitrary values. -/
inductive PyVal where
  | str : String → PyVal
  | int : Int → PyVal
  | bool : Bool → PyVal
  | list : List PyVal → PyVal
  | none : PyVal

/-- A raised Python exception object (an `Exception` instance): its class
name and the rendering of its constructor arguments. -/
structure PyExc where
  typeName : String
  argsRepr : String
deriving DecidableEq, Repr

/-- Python's `repr(e)` for an exception: `ClassName(args)`.  Always ends in
`)`, hence is never empty. -/
def reprExc (e : PyExc) : String :=
  e.typeName ++ "(" ++ e.argsRepr ++ ")"

/-- A handler: a Python callable receiving a list of positional arguments
(a `def h(*args)` binds that whole list to `args`) and either returning a
value or raising an exception. -/
def Handler : Type := List PyVal → Except PyExc PyVal

/-- `COMMAND_REGISTRY`: the dict from normalized command name to handler. -/
def Registry : Type := String → Option Handler

/-- The registry before any registration. -/
def emptyRegistry : Registry := fun _ => Option.none

/-- The effect of the `command(name)` decorator on the registry:
`COMMAND_REGISTRY[normalize_command_name(name)] = func` (dict assignment:
a later registration under the same key replaces the earlier one). -/
def register (r : Registry) (name : String) (handler : Handler) : Registry :=
  fun key => if key = normalize_command_name name then some handler else r key

/-- `COMMAND_REGISTRY.get(name)`: the handler stored under `name`, if any. -/
def lookup (r : Registry) (name : String) : Option Handler := r name

/-- The result dict built by `handle_command`.  Optional fields model keys
that are present in some branches and absent in others. -/
structure Outcome (M : Type) where
  handled : Bool
  command : String
  args : List String
  meta : M
  handler_result : Option PyVal := Option.none
  reason : Option String := Option.none
  error : Option String := Option.none

/-- One call `handle_command` makes on its logger, constructor by
constructor: `COMMAND_HANDLE_START`, `COMMAND_HANDLER_NOT_FOUND`,
`COMMAND_HANDLER_ERROR` (with `repr(e)`), `COMMAND_HANDLE_END`. -/
inductive LogEvent (M : Type) where
  | handleStart (name : String) (args : List String) (meta : M)
  | handlerNotFound (name : String)
  | handlerError (name : String) (error : String)
  | handleEnd (result : Outcome M)

/-- Python log level. -/
inductive LogLevel where
  | info
  | warning
  | error
deriving DecidableEq, Repr

/-- The level at which `handle_command` emits each event: `logger.info` for
start/end, `logger.warning` for a missing handler, `logger.error` for a
handler exception. -/
def logLevel {M : Type} : LogEvent M → LogLevel
  | .handleStart _ _ _ => .info
  | .handlerNotFound _ => .warning
  | .handlerError _ _ => .error
  | .handleEnd _ => .info

/-- `handle_command` from `command_processor.py`.  Returns the result dict
together with the ordered log events it emitted.  The registry miss builds
`{handled: False, reason: "handler_not_found", command, args, meta}` after a
warning log; a hit calls `handler(*cmd.args)` — the argument list expanded
into individual positional arguments — and on a normal return builds
`{handled: True, ..., handler_result}`, while a raised exception is caught
(`except Exception as e`), logged at error level with `repr(e)`, and turned
into `{handled: False, reason: "handler_exception", ..., error: repr(e)}`;
in every branch the dispatcher itself returns normally. -/
def handle_command {M : Type} (registry : Registry) (cmd : Command) (meta : M) :
    Outcome M × List (LogEvent M) :=
  let startLog : LogEvent M := .handleStart cmd.name cmd.args meta
  match lookup registry cmd.name with
  | Option.none =>
    let result : Outcome M :=
      { handled := false, reason := some "handler_not_found",
        command := cmd.name, args := cmd.args, meta := meta }
    (result, [startLog, .handlerNotFound cmd.name, .handleEnd result])
  | Option.some handler =>
    match handler (cmd.args.map PyVal.str) with
    | .ok handler_result =>
      let result : Outcome M :=
        { handled := true, command := cmd.name, args := cmd.args,
          meta := meta, handler_result := some handler_result }
      (result, [startLog, .handleEnd result])
    | .error e =>
      let result : Outcome M :=
        { handled := false, reason := some "handler_exception",
          command := cmd.name, args := cmd.args, meta := meta,
          error := some (reprExc e) }
      (result, [startLog, .handlerError cmd.name (reprExc e), .handleEnd result])

/-- The name/args computation of `parse_command`, as a function of the first
line of the stripped body alone; `parse_command` factors through it, which is
how we state that lines after the first can affect neither name nor args. -/
def parseFirstLine (fl : String) : Option (String × List String) :=
  match pySplit (pyStrip fl) with
  | [] => Option.none
  | raw_name :: args =>
    let normalized_name := normalize_command_name raw_name
    if normalized_name = "" then Option.none else some (normalized_name, args)

/-- The name and args of a parsed command, without its raw text. -/
def cmdNameArgs (c : Command) : String × List String := (c.name, c.args)

/-- A handler that concatenates exactly two positional string arguments and
raises a `TypeError` for any other argument shape; it can tell two separate
positional arguments from a single list-valued argument. -/
def concatHandler : Handler := fun vs =>
  match vs with
  | [PyVal.str a, PyVal.str b] => Except.ok (PyVal.str (a ++ b))
  | _ => Except.error ⟨"TypeError", "bad arguments"⟩

/-- A handler that always raises `ValueError(boom)`. -/
def boomHandler : Handler := fun _ => Except.error ⟨"ValueError", "boom"⟩

/-- A handler that always returns the integer 1. -/
def oneHandler : Handler := fun _ => Except.ok (PyVal.int 1)

/-- A handler that always returns the integer 2. -/
def twoHandler : Handler := fun _ => Except.ok (PyVal.int 2)

/-! ### Helper lemmas about the character classes and string helpers -/

theorem isPySpace_of_isLineBoundary {c : Char} (h : isLineBoundary c = true) :
    isPySpace c = true := by
  simp only [isLineBoundary, Bool.or_eq_true, decide_eq_true_eq] at h
  rcases h with ((((((((h | h) | h) | h) | h) | h) | h) | h) | h) | h <;>
    subst h <;> decide

theorem dropWhile_eq_self_of_forall {α : Type} {p : α → Bool} {l : List α}
    (h : ∀ c ∈ l, p c = false) : l.dropWhile p = l := by
  cases l with
  | nil => rfl
  | cons c cs => simp [List.dropWhile_cons, h c (List.mem_cons_self c cs)]

theorem dropWhile_append_of_forall {α : Type} {p : α → Bool} {l₁ l₂ : List α}
    (h : ∀ c ∈ l₁, p c = true) :
    (l₁ ++ l₂).dropWhile p = l₂.dropWhile p := by
  rw [List.dropWhile_append]
  simp [List.dropWhile_eq_nil_iff.2 h]

theorem pyStrip_eq_self {t : String} (h : ∀ c ∈ t.data, isPySpace c = false) :
    pyStrip t = t := by
  apply String.ext
  show rstripBy isPySpace (t.data.dropWhile isPySpace) = t.data
  rw [dropWhile_eq_self_of_forall h]
  unfold rstripBy
  rw [dropWhile_eq_self_of_forall (fun c hc => h c (List.mem_reverse.mp hc)),
    List.reverse_reverse]

theorem pyStrip_empty_of_forall {t : String}
    (h : ∀ c ∈ t.data, isPySpace c = true) : pyStrip t = "" := by
  apply String.ext
  show rstripBy isPySpace (t.data.dropWhile isPySpace) = ("" : String).data
  rw [List.dropWhile_eq_nil_iff.2 h]
  rfl

theorem pyFirstLine_eq_self {t : String}
    (h : ∀ c ∈ t.data, isPySpace c = false) : pyFirstLine t = t := by
  apply String.ext
  show t.data.takeWhile (fun c => !isLineBoundary c) = t.data
  rw [List.takeWhile_eq_self_iff]
  intro c hc
  have hb : isLineBoundary c = false := by
    by_contra hcon
    rw [Bool.not_eq_false] at hcon
    have hsp := isPySpace_of_isLineBoundary hcon
    rw [h c hc] at hsp
    exact Bool.false_ne_true hsp
  simp [hb]

theorem pySplitAux_all_not_space {l : List Char} (acc : List Char)
    (hl : ∀ c ∈ l, isPySpace c = false) :
    pySplitAux l acc =
      if (acc.reverse ++ l).isEmpty then [] else [acc.reverse ++ l] := by
  induction l generalizing acc with
  | nil => simp [pySplitAux, List.isEmpty_iff]
  | cons c cs ih =>
    rw [pySplitAux, hl c (List.mem_cons_self c cs)]
    simp only [Bool.false_eq_true, if_false]
    rw [ih (c :: acc) (fun d hd => hl d (List.mem_cons_of_mem c hd))]
    simp [List.isEmpty_iff, List.append_assoc]

theorem pySplitAux_tokens {l : List Char} (acc : List Char)
    (hacc : ∀ c ∈ acc, isPySpace c = false) :
    ∀ t ∈ pySplitAux l acc, t ≠ [] ∧ ∀ c ∈ t, isPySpace c = false := by
  induction l generalizing acc with
  | nil =>
    intro t ht
    rw [pySplitAux] at ht
    by_cases hacc' : acc.isEmpty
    · simp [hacc'] at ht
    · rw [if_neg hacc'] at ht
      rcases List.mem_singleton.mp ht with rfl
      refine ⟨?_, fun c hc => hacc c (List.mem_reverse.mp hc)⟩
      simp only [ne_eq, List.reverse_eq_nil_iff]
      intro hcon
      exact hacc' (by simp [hcon])
  | cons c cs ih =>
    intro t ht
    rw [pySplitAux] at ht
    by_cases hc : isPySpace c
    · rw [if_pos hc] at ht
      by_cases hacc' : acc.isEmpty
      · rw [if_pos hacc'] at ht
        exact ih [] (by simp) t ht
      · rw [if_neg hacc'] at ht
        rcases List.mem_cons.mp ht with rfl | ht
        · refine ⟨?_, fun d hd => hacc d (List.mem_reverse.mp hd)⟩
          simp only [ne_eq, List.reverse_eq_nil_iff]
          intro hcon
          exact hacc' (by simp [hcon])
        · exact ih [] (by simp) t ht
    · rw [if_neg hc] at ht
      refine ih (c :: acc) ?_ t ht
      intro d hd
      rcases List.mem_cons.mp hd with rfl | hd
      · simpa using hc
      · exact hacc d hd

theorem pySplit_tokens {s : String} :
    ∀ t ∈ pySplit s, t ≠ "" ∧ ∀ c ∈ t.data, isPySpace c = false := by
  intro t ht
  unfold pySplit at ht
  rcases List.mem_map.mp ht with ⟨l, hl, rfl⟩
  obtain ⟨hne, hall⟩ := pySplitAux_tokens [] (by simp) l hl
  refine ⟨?_, hall⟩
  intro hcon
  exact hne (congrArg String.data hcon)

theorem pySplit_single {t : String} (h1 : t ≠ "")
    (h2 : ∀ c ∈ t.data, isPySpace c = false) : pySplit t = [t] := by
  unfold pySplit
  rw [pySplitAux_all_not_space [] h2]
  have hne : t.data ≠ [] := fun hc => h1 (String.ext hc)
  simp [List.isEmpty_iff, hne]

theorem char_toNat_ofNat {n : Nat} (h : n.isValidChar) :
    (Char.ofNat n).toNat = n := by
  simp [Char.ofNat, h, Char.ofNatAux, Char.toNat, UInt32.toNat]

theorem sigma_toNat : ('Σ' : Char).toNat = 0x3A3 := by decide

theorem slash_toNat : ('/' : Char).toNat = 47 := by decide

theorem findLM_sigma : findLM lowerMap 0x3A3 = some [0x3C3] := by decide

theorem lowerChar_varsigma : lowerChar 'ς' = ['ς'] := by decide

theorem findLM_mem {t : LowerMap} {n : Nat} {v : List Nat}
    (h : findLM t n = some v) : (n, v) ∈ entriesLM t := by
  induction t with
  | leaf => simp [findLM] at h
  | node l k w r ihl ihr =>
    rw [findLM] at h
    by_cases h1 : n < k
    · rw [if_pos h1] at h
      exact List.mem_append.mpr (Or.inl (ihl h))
    · rw [if_neg h1] at h
      by_cases h2 : k < n
      · rw [if_pos h2] at h
        exact List.mem_append.mpr
          (Or.inr (List.mem_cons_of_mem _ (ihr h)))
      · rw [if_neg h2] at h
        have hk : n = k := by omega
        have hv := Option.some.inj h
        subst hk
        subst hv
        exact List.mem_append.mpr (Or.inr (List.mem_cons_self _ _))

theorem allTree_mem {p : Nat → List Nat → Bool} :
    ∀ {t : LowerMap}, allTree p t = true →
      ∀ e ∈ entriesLM t, p e.1 e.2 = true := by
  intro t
  induction t with
  | leaf =>
    intro _ e he
    simp [entriesLM] at he
  | node l k v r ihl ihr =>
    intro ht e he
    rw [allTree] at ht
    obtain ⟨⟨hp, hl⟩, hr⟩ :
        (p k v = true ∧ allTree p l = true) ∧ allTree p r = true := by
      simpa [Bool.and_eq_true] using ht
    rw [entriesLM] at he
    rcases List.mem_append.mp he with he | he
    · exact ihl hl e he
    · rcases List.mem_cons.mp he with rfl | he
      · exact hp
      · exact ihr hr e he

set_option maxHeartbeats 8000000 in
/-- The decided check of the lowercase table, evaluated along the tree. -/
theorem lowerMap_check : allTree entryOk lowerMap = true := by decide

/-- The sanity facts about the generated lowercase table: every entry maps
a code point at or above 0xC0 to a non-empty list of valid code points,
none of which is the slash, the capital sigma, an uppercase ASCII letter,
or itself a mapped code point. -/
theorem lowerMap_entries_ok : ∀ e ∈ entriesLM lowerMap, 0xC0 ≤ e.1 ∧
    e.2 ≠ [] ∧ ∀ n ∈ e.2, n.isValidChar ∧ n ≠ 47 ∧ n ≠ 0x3A3 ∧
      (n < 0xC0 → ¬(65 ≤ n ∧ n ≤ 90)) ∧
      (0xC0 ≤ n → findLM lowerMap n = Option.none) := by
  intro e he
  have h := allTree_mem lowerMap_check e he
  rw [entryOk] at h
  exact of_decide_eq_true h

theorem lowerChar_ne_nil (c : Char) : lowerChar c ≠ [] := by
  unfold lowerChar
  by_cases h0 : c.toNat < 0xC0
  · rw [if_pos h0]
    by_cases h1 : 65 ≤ c.toNat ∧ c.toNat ≤ 90
    · rw [if_pos h1]; simp
    · rw [if_neg h1]; simp
  · rw [if_neg h0]
    cases hf : findLM lowerMap c.toNat with
    | none => simp
    | some outs =>
      obtain ⟨-, hne, -⟩ := lowerMap_entries_ok _ (findLM_mem hf)
      simp only [ne_eq, List.map_eq_nil_iff]
      exact hne

theorem mem_lowerChar_fix {c d : Char} (h : d ∈ lowerChar c) :
    lowerFixed d := by
  unfold lowerChar at h
  by_cases h0 : c.toNat < 0xC0
  · rw [if_pos h0] at h
    by_cases h1 : 65 ≤ c.toNat ∧ c.toNat ≤ 90
    · rw [if_pos h1] at h
      rcases List.mem_singleton.mp h with rfl
      have ht : (Char.ofNat (c.toNat + 32)).toNat = c.toNat + 32 :=
        char_toNat_ofNat (Or.inl (by omega))
      constructor
      · unfold lowerChar
        rw [ht, if_pos (by omega : c.toNat + 32 < 0xC0),
          if_neg (by omega : ¬(65 ≤ c.toNat + 32 ∧ c.toNat + 32 ≤ 90))]
      · intro hcon
        have hn := congrArg Char.toNat hcon
        rw [ht, sigma_toNat] at hn
        omega
    · rw [if_neg h1] at h
      rcases List.mem_singleton.mp h with rfl
      constructor
      · unfold lowerChar
        rw [if_pos h0, if_neg h1]
      · intro hcon
        have hn := congrArg Char.toNat hcon
        rw [sigma_toNat] at hn
        omega
  · rw [if_neg h0] at h
    cases hf : findLM lowerMap c.toNat with
    | none =>
      rw [hf] at h
      rcases List.mem_singleton.mp h with rfl
      constructor
      · unfold lowerChar
        rw [if_neg h0, hf]
      · intro hcon
        subst hcon
        rw [sigma_toNat, findLM_sigma] at hf
        simp at hf
    | some outs =>
      rw [hf] at h
      rcases List.mem_map.mp h with ⟨n, hn, rfl⟩
      obtain ⟨-, -, hprops⟩ := lowerMap_entries_ok _ (findLM_mem hf)
      obtain ⟨hvalid, h47, hsig, hup, habs⟩ := hprops n hn
      have ht : (Char.ofNat n).toNat = n := char_toNat_ofNat hvalid
      constructor
      · unfold lowerChar
        rw [ht]
        by_cases h2 : n < 0xC0
        · rw [if_pos h2, if_neg (hup h2)]
        · rw [if_neg h2, habs (by omega)]
      · intro hcon
        have hc := congrArg Char.toNat hcon
        rw [ht, sigma_toNat] at hc
        exact hsig hc

theorem mem_lowerChar_ne_slash {c d : Char} (hc : c ≠ '/')
    (h : d ∈ lowerChar c) : d ≠ '/' := by
  unfold lowerChar at h
  by_cases h0 : c.toNat < 0xC0
  · rw [if_pos h0] at h
    by_cases h1 : 65 ≤ c.toNat ∧ c.toNat ≤ 90
    · rw [if_pos h1] at h
      rcases List.mem_singleton.mp h with rfl
      intro hcon
      have hn := congrArg Char.toNat hcon
      rw [char_toNat_ofNat (Or.inl (by omega)), slash_toNat] at hn
      omega
    · rw [if_neg h1] at h
      rcases List.mem_singleton.mp h with rfl
      exact hc
  · rw [if_neg h0] at h
    cases hf : findLM lowerMap c.toNat with
    | none =>
      rw [hf] at h
      rcases List.mem_singleton.mp h with rfl
      exact hc
    | some outs =>
      rw [hf] at h
      rcases List.mem_map.mp h with ⟨n, hn, rfl⟩
      obtain ⟨-, -, hprops⟩ := lowerMap_entries_ok _ (findLM_mem hf)
      obtain ⟨hvalid, h47, -⟩ := hprops n hn
      intro hcon
      have hx := congrArg Char.toNat hcon
      rw [char_toNat_ofNat hvalid, slash_toNat] at hx
      exact h47 hx

theorem mem_pyLowerAux_fix :
    ∀ (l b : List Char) (d : Char), d ∈ pyLowerAux b l → lowerFixed d := by
  intro l
  induction l with
  | nil =>
    intro b d hd
    simp [pyLowerAux] at hd
  | cons c rest ih =>
    intro b d hd
    rw [pyLowerAux] at hd
    rcases List.mem_append.mp hd with hd | hd
    · by_cases hs : c = 'Σ'
      · rw [if_pos hs] at hd
        by_cases hf : finalSigma b rest = true
        · rw [if_pos hf] at hd
          rcases List.mem_singleton.mp hd with rfl
          exact ⟨lowerChar_varsigma, by decide⟩
        · rw [if_neg hf] at hd
          exact mem_lowerChar_fix hd
      · rw [if_neg hs] at hd
        exact mem_lowerChar_fix hd
    · exact ih (c :: b) d hd

theorem pyLowerAux_fixed_eq :
    ∀ (l b : List Char), (∀ d ∈ l, lowerFixed d) → pyLowerAux b l = l := by
  intro l
  induction l with
  | nil =>
    intro b _
    rfl
  | cons c rest ih =>
    intro b hall
    obtain ⟨hfix, hnsig⟩ := hall c (List.mem_cons_self c rest)
    rw [pyLowerAux, if_neg hnsig, hfix,
      ih (c :: b) (fun d hd => hall d (List.mem_cons_of_mem c hd))]
    rfl

theorem pyLowerAux_head_ne_slash {ch : Char} (rest b : List Char)
    (hch : ch ≠ '/') : (pyLowerAux b (ch :: rest)).head? ≠ some '/' := by
  have hblock : ∀ blk rec : List Char, blk ≠ [] →
      (∀ d ∈ blk, d ≠ '/') → (blk ++ rec).head? ≠ some '/' := by
    intro blk rec hne hall
    cases blk with
    | nil => exact absurd rfl hne
    | cons d ds =>
      rw [List.cons_append, List.head?_cons]
      intro hcon
      exact hall d (List.mem_cons_self d ds) (Option.some.inj hcon)
  rw [pyLowerAux]
  by_cases hs : ch = 'Σ'
  · rw [if_pos hs]
    by_cases hf : finalSigma b rest = true
    · rw [if_pos hf]
      refine hblock _ _ (by simp) ?_
      intro d hd
      rcases List.mem_singleton.mp hd with rfl
      decide
    · rw [if_neg hf]
      exact hblock _ _ (lowerChar_ne_nil ch)
        (fun d hd => mem_lowerChar_ne_slash hch hd)
  · rw [if_neg hs]
    exact hblock _ _ (lowerChar_ne_nil ch)
      (fun d hd => mem_lowerChar_ne_slash hch hd)

theorem head_dropWhile_false {α : Type} {p : α → Bool} {l cs : List α} {c : α}
    (h : l.dropWhile p = c :: cs) : p c = false := by
  induction l with
  | nil => simp at h
  | cons d ds ih =>
    rw [List.dropWhile_cons] at h
    by_cases hd : p d = true
    · rw [if_pos hd] at h
      exact ih h
    · rw [if_neg hd] at h
      cases h
      simpa using hd

theorem pyLower_idem (s : String) : pyLower (pyLower s) = pyLower s := by
  apply String.ext
  show pyLowerAux [] (pyLowerAux [] s.data) = pyLowerAux [] s.data
  exact pyLowerAux_fixed_eq _ _ (fun d hd => mem_pyLowerAux_fix _ _ _ hd)

theorem reprExc_ne_empty (e : PyExc) : reprExc e ≠ "" := by
  intro hcon
  have hd := congrArg String.data hcon
  rw [reprExc, String.data_append, String.data_append] at hd
  simp at hd

/-- `parse_command` factors through `parseFirstLine` applied to the first
line of the outer-stripped body; the raw text is the only part of the result
that depends on the rest of the body. -/
theorem parse_command_eq_parseFirstLine (t : String) :
    parse_command t =
      (parseFirstLine (pyFirstLine (pyStrip t))).map
        (fun p => ⟨p.1, p.2, t⟩) := by
  by_cases h0 : t = ""
  · subst h0
    rfl
  · simp only [parse_command, parseFirstLine, if_neg h0]
    by_cases h1 : pyStrip t = ""
    · rw [if_pos h1, h1]
      rfl
    · rw [if_neg h1]
      by_cases h2 : pyStrip (pyFirstLine (pyStrip t)) = ""
      · rw [if_pos h2, h2]
        rfl
      · rw [if_neg h2]
        cases hsplit : pySplit (pyStrip (pyFirstLine (pyStrip t))) with
        | nil => rfl
        | cons raw args =>
          by_cases h3 : normalize_command_name raw = ""
          · simp [h3]
          · simp [h3]

/-! ### The claims about `parse_command` -/

/-- C4: for every non-empty single-token input (no whitespace characters)
whose normalization is non-empty, such as `"/Foo"`, `parse_command` returns
a `Command` whose name is the token trimmed, stripped of all leading `/`
markers and lowercased (that is, `normalize_command_name` of the token),
whose args are empty, and whose raw text is the original input. -/
theorem c4_parse_single_token (t : String) (h1 : t ≠ "")
    (h2 : ∀ c ∈ t.data, isPySpace c = false)
    (h3 : normalize_command_name t ≠ "") :
    parse_command t = some ⟨normalize_command_name t, [], t⟩ := by
  rw [parse_command_eq_parseFirstLine, pyStrip_eq_self h2,
    pyFirstLine_eq_self h2]
  unfold parseFirstLine
  rw [pyStrip_eq_self h2, pySplit_single h1 h2]
  simp [h3]

/-- Witness for C4 at the spec's own example `"/Foo"`. -/
theorem c4_parse_single_token_witness :
    parse_command "/Foo" = some ⟨"foo", [], "/Foo"⟩ := by
  have h := c4_parse_single_token "/Foo" (by decide) (by decide) (by decide)
  rw [h]
  decide

/-- C5: the name and args of a parsed command are a function of the first
line of the outer-stripped input alone (two inputs with the same first line
parse to the same name and args), while `raw_text` is the complete original
input; in particular the spec's example `"/reload a b\nignored second line"`
parses to name `"reload"`, args `["a", "b"]`, and the full two-line raw
text. -/
theorem c5_parse_first_line_only :
    (∀ t c, parse_command t = some c → c.raw_text = t) ∧
    (∀ t₁ t₂ : String, pyFirstLine (pyStrip t₁) = pyFirstLine (pyStrip t₂) →
      Option.map cmdNameArgs (parse_command t₁) =
        Option.map cmdNameArgs (parse_command t₂)) ∧
    parse_command "/reload a b\nignored second line" =
      some ⟨"reload", ["a", "b"], "/reload a b\nignored second line"⟩ := by
  refine ⟨?_, ?_, by decide⟩
  · intro t c h
    rw [parse_command_eq_parseFirstLine] at h
    cases hq : parseFirstLine (pyFirstLine (pyStrip t)) with
    | none => rw [hq] at h; simp at h
    | some p =>
      rw [hq] at h
      have h' := Option.some.inj h
      rw [← h']
  · intro t₁ t₂ h
    rw [parse_command_eq_parseFirstLine, parse_command_eq_parseFirstLine, h]
    cases parseFirstLine (pyFirstLine (pyStrip t₂)) with
    | none => rfl
    | some p => rfl

/-- Witness for C5: the raw-text clause at the parsed two-line example, and
the first-line clause on two inputs differing only after line 1. -/
theorem c5_parse_first_line_only_witness :
    (⟨"reload", ["a", "b"], "/reload a b\nignored second line"⟩ :
        Command).raw_text = "/reload a b\nignored second line" ∧
    Option.map cmdNameArgs (parse_command "/r one\nAAA") =
      Option.map cmdNameArgs (parse_command "/r one\nBBB") :=
  ⟨c5_parse_first_line_only.1 _ _ (by decide),
   c5_parse_first_line_only.2.1 _ _ (by decide)⟩

/-- C6: empty and all-whitespace inputs parse to `none`, and the marker-only
input `"/"` parses to `none` because its normalization is empty.  Failure is
always the absent value: `parse_command` is a total Lean function, the
embedding of the fact that the Python code raises on no string input. -/
theorem c6_parse_blank_or_marker_only :
    (∀ t : String, (∀ c ∈ t.data, isPySpace c = true) →
      parse_command t = Option.none) ∧
    parse_command "/" = Option.none := by
  refine ⟨?_, by decide⟩
  intro t h
  by_cases h0 : t = ""
  · subst h0
    rfl
  · simp only [parse_command, if_neg h0]
    rw [if_pos (pyStrip_empty_of_forall h)]

/-- Witness for C6 at a mixed-whitespace input. -/
theorem c6_parse_blank_or_marker_only_witness :
    parse_command " \n \t " = Option.none :=
  c6_parse_blank_or_marker_only.1 " \n \t " (by decide)

/-- C7 counterexample: the input `"\n/health"` — a blank first line, then a
command line on line 2 — does not yield absent: the outer trim consumes the
leading blank line and the command parses. -/
theorem c7_counterexample :
    parse_command "\n/health" = some ⟨"health", [], "\n/health"⟩ := by
  decide

/-- C7 amended: for input consisting of pure-whitespace characters (for
instance blank lines) followed by the rest of the body, the leading
whitespace is consumed by the outer trim, so `parse_command` behaves exactly
as on the rest of the body alone, except that `raw_text` keeps the whole
original input; such inputs are not absent whenever the rest parses. -/
theorem c7_leading_blank_lines (p t : String)
    (hp : ∀ c ∈ p.data, isPySpace c = true) :
    parse_command (p ++ t) =
      Option.map (fun c => ⟨c.name, c.args, p ++ t⟩) (parse_command t) := by
  have hstrip : pyStrip (p ++ t) = pyStrip t := by
    apply String.ext
    show rstripBy isPySpace ((p ++ t).data.dropWhile isPySpace) =
      rstripBy isPySpace (t.data.dropWhile isPySpace)
    rw [String.data_append, dropWhile_append_of_forall hp]
  rw [parse_command_eq_parseFirstLine, parse_command_eq_parseFirstLine t,
    hstrip]
  cases parseFirstLine (pyFirstLine (pyStrip t)) with
  | none => rfl
  | some q => rfl

/-- Witness for C7 amended: two blank lines before `/health a`. -/
theorem c7_leading_blank_lines_witness :
    parse_command ("\n\n" ++ "/health a") =
      Option.map (fun c => ⟨c.name, c.args, "\n\n" ++ "/health a"⟩)
        (parse_command "/health a") :=
  c7_leading_blank_lines "\n\n" "/health a" (by decide)

/-- C10: every successfully parsed command has a non-empty name that is
fixed under lowercasing and does not begin with the `/` marker, and every
arg is a non-empty whitespace-free token; the name and args come from the
whitespace-split of the first line of the stripped input, in order, the name
being the normalization of the first token and the args the remaining
tokens. -/
theorem c10_parsed_command_invariants (t : String) (c : Command)
    (h : parse_command t = some c) :
    c.name ≠ "" ∧ pyLower c.name = c.name ∧ c.name.data.head? ≠ some '/' ∧
    (∀ a ∈ c.args, a ≠ "" ∧ ∀ ch ∈ a.data, isPySpace ch = false) ∧
    ∃ raw, pySplit (pyStrip (pyFirstLine (pyStrip t))) = raw :: c.args ∧
      c.name = normalize_command_name raw := by
  rw [parse_command_eq_parseFirstLine] at h
  cases hq : parseFirstLine (pyFirstLine (pyStrip t)) with
  | none => rw [hq] at h; simp at h
  | some p =>
    rw [hq] at h
    have h' := Option.some.inj h
    unfold parseFirstLine at hq
    cases hsplit : pySplit (pyStrip (pyFirstLine (pyStrip t))) with
    | nil => rw [hsplit] at hq; simp at hq
    | cons raw args =>
      rw [hsplit] at hq
      have hq2 : (if normalize_command_name raw = "" then Option.none
          else some (normalize_command_name raw, args)) = some p := hq
      by_cases h3 : normalize_command_name raw = ""
      · rw [if_pos h3] at hq2
        exact absurd hq2 (by simp)
      · rw [if_neg h3] at hq2
        have hp : p = (normalize_command_name raw, args) :=
          (Option.some.inj hq2).symm
        subst hp
        subst h'
        refine ⟨h3, pyLower_idem _, ?_, ?_, raw, rfl, rfl⟩
        · show (pyLower
            ⟨(pyStrip raw).data.dropWhile (fun c => c = '/')⟩).data.head? ≠
              some '/'
          cases hl : (pyStrip raw).data.dropWhile (fun c => c = '/') with
          | nil =>
            refine absurd (String.ext ?_ : normalize_command_name raw = "") h3
            show pyLowerAux []
              ((pyStrip raw).data.dropWhile (fun c => c = '/')) =
                ("" : String).data
            rw [hl]
            rfl
          | cons ch rest =>
            have hch : ch ≠ '/' := by
              have := head_dropWhile_false hl
              simpa using this
            show (pyLowerAux [] ((⟨ch :: rest⟩ : String).data)).head? ≠
              some '/'
            exact pyLowerAux_head_ne_slash rest [] hch
        · intro a ha
          exact pySplit_tokens a (hsplit ▸ List.mem_cons_of_mem raw ha)

/-- Witness for C10 at the two-token input `"/Foo x"`. -/
theorem c10_parsed_command_invariants_witness :
    ("foo" : String) ≠ "" ∧ pyLower "foo" = "foo" ∧
    ("foo" : String).data.head? ≠ some '/' ∧
    (∀ a ∈ (["x"] : List String), a ≠ "" ∧
      ∀ ch ∈ a.data, isPySpace ch = false) ∧
    ∃ raw, pySplit (pyStrip (pyFirstLine (pyStrip "/Foo x"))) = raw :: ["x"] ∧
      ("foo" : String) = normalize_command_name raw :=
  c10_parsed_command_invariants "/Foo x" ⟨"foo", ["x"], "/Foo x"⟩ (by decide)

/-! ### The claims about the registry and `handle_command` -/

/-- C1: when the registered handler for the command raises any error, the
dispatcher returns — rather than propagating the exception, `handle_command`
is a total function of the handler's outcome — an outcome with
`handled = false`, `reason = "handler_exception"`, the command, args and
meta echoed, and `error` the non-empty string representation of the raised
exception; and it logs an error-level event carrying the command name and
that same string. -/
theorem c1_handler_exception {M : Type} (registry : Registry) (cmd : Command)
    (meta : M) (h : Handler) (e : PyExc)
    (hl : lookup registry cmd.name = some h)
    (he : h (cmd.args.map PyVal.str) = Except.error e) :
    (handle_command registry cmd meta).1 =
      { handled := false, reason := some "handler_exception",
        command := cmd.name, args := cmd.args, meta := meta,
        error := some (reprExc e) } ∧
    reprExc e ≠ "" ∧
    LogEvent.handlerError cmd.name (reprExc e) ∈
      (handle_command registry cmd meta).2 ∧
    logLevel (LogEvent.handlerError cmd.name (reprExc e) : LogEvent M) =
      LogLevel.error := by
  have hc : handle_command registry cmd meta =
      ({ handled := false, reason := some "handler_exception",
         command := cmd.name, args := cmd.args, meta := meta,
         error := some (reprExc e) },
       [LogEvent.handleStart cmd.name cmd.args meta,
        LogEvent.handlerError cmd.name (reprExc e),
        LogEvent.handleEnd
          { handled := false, reason := some "handler_exception",
            command := cmd.name, args := cmd.args, meta := meta,
            error := some (reprExc e) }]) := by
    simp only [handle_command, hl, he]
  rw [hc]
  exact ⟨rfl, reprExc_ne_empty e, by simp, rfl⟩

/-- Witness for C1: a registered handler that raises `ValueError(boom)`. -/
theorem c1_handler_exception_witness :
    (handle_command (register emptyRegistry "boom" boomHandler)
        ⟨"boom", [], "/boom"⟩ "m").1.error = some "ValueError(boom)" ∧
    ("ValueError(boom)" : String) ≠ "" := by
  have h := c1_handler_exception (register emptyRegistry "boom" boomHandler)
    ⟨"boom", [], "/boom"⟩ "m" boomHandler ⟨"ValueError", "boom"⟩ rfl rfl
  refine ⟨?_, h.2.1⟩
  rw [h.1]
  rfl

/-- C2: when the command's name has no registry entry, `handle_command`
returns — without raising, being a total function — the outcome
`{handled := false, reason := "handler_not_found"}` echoing command, args
and meta, and its logs are exactly the start event, a warning-level
handler-not-found event, and the end event. -/
theorem c2_handler_not_found {M : Type} (registry : Registry) (cmd : Command)
    (meta : M) (hl : lookup registry cmd.name = Option.none) :
    handle_command registry cmd meta =
      ({ handled := false, reason := some "handler_not_found",
         command := cmd.name, args := cmd.args, meta := meta },
       [LogEvent.handleStart cmd.name cmd.args meta,
        LogEvent.handlerNotFound cmd.name,
        LogEvent.handleEnd
          { handled := false, reason := some "handler_not_found",
            command := cmd.name, args := cmd.args, meta := meta }]) ∧
    logLevel (LogEvent.handlerNotFound cmd.name : LogEvent M) =
      LogLevel.warning := by
  constructor
  · unfold handle_command
    rw [hl]
  · rfl

/-- Witness for C2: dispatching an unregistered command name. -/
theorem c2_handler_not_found_witness :
    (handle_command emptyRegistry ⟨"nosuch", ["a"], "/nosuch a"⟩ "m").1.reason
      = some "handler_not_found" := by
  have h := c2_handler_not_found emptyRegistry ⟨"nosuch", ["a"], "/nosuch a"⟩
    "m" rfl
  rw [h.1]

/-- C3: when the registered handler returns normally, `handle_command`
invokes it on the args expanded into one positional argument per token —
`cmd.args.map PyVal.str`, a list with one separate `PyVal.str` entry per
arg; for args `[x, y]` that is the two arguments `[str x, str y]` and never
a single (list) argument — and the outcome has `handled = true` and
`handler_result` equal to the handler's return value. -/
theorem c3_handler_success {M : Type} (registry : Registry) (cmd : Command)
    (meta : M) (h : Handler) (v : PyVal)
    (hl : lookup registry cmd.name = some h)
    (hr : h (cmd.args.map PyVal.str) = Except.ok v) :
    (handle_command registry cmd meta).1 =
      { handled := true, command := cmd.name, args := cmd.args,
        meta := meta, handler_result := some v } ∧
    (cmd.args.map PyVal.str).length = cmd.args.length ∧
    (∀ x y : String, cmd.args = [x, y] →
      cmd.args.map PyVal.str = [PyVal.str x, PyVal.str y] ∧
      ∀ w : PyVal, cmd.args.map PyVal.str ≠ [w]) := by
  refine ⟨?_, List.length_map _ _, ?_⟩
  · simp only [handle_command, hl, hr]
  · intro x y hxy
    rw [hxy]
    exact ⟨rfl, fun w hcon => by simp at hcon⟩

/-- Witness for C3: a handler that concatenates exactly two positional
string arguments observes `"x"` and `"y"` separately and returns `"xy"`,
which the outcome echoes in `handler_result`. -/
theorem c3_handler_success_witness :
    (handle_command (register emptyRegistry "concat" concatHandler)
        ⟨"concat", ["x", "y"], "/concat x y"⟩ "m").1.handler_result =
      some (PyVal.str "xy") ∧
    (["x", "y"] : List String).map PyVal.str =
      [PyVal.str "x", PyVal.str "y"] := by
  have h := c3_handler_success (register emptyRegistry "concat" concatHandler)
    ⟨"concat", ["x", "y"], "/concat x y"⟩ "m" concatHandler
    (PyVal.str "xy") rfl rfl
  exact ⟨by rw [h.1], (h.2.2 "x" "y" rfl).1⟩

/-- C8 counterexample: a dispatch that misses the registry yields an outcome
with `handled = false` whose record has no `error` field, contradicting the
claim that every `handled = false` outcome contains both `reason` and
`error`. -/
theorem c8_counterexample :
    (handle_command emptyRegistry ⟨"ghost", [], "/ghost"⟩ "m").1.handled =
      false ∧
    (handle_command emptyRegistry ⟨"ghost", [], "/ghost"⟩ "m").1.reason =
      some "handler_not_found" ∧
    (handle_command emptyRegistry ⟨"ghost", [], "/ghost"⟩ "m").1.error =
      Option.none := by
  exact ⟨rfl, rfl, rfl⟩

/-- C8 amended: every `handled = false` outcome carries a `reason` that is
`"handler_not_found"` — in which case no `error` field is present — or
`"handler_exception"` — in which case an `error` field is present; every
`handled = true` outcome carries `handler_result` and neither `reason` nor
`error`. -/
theorem c8_outcome_fields {M : Type} (registry : Registry) (cmd : Command)
    (meta : M) :
    ((handle_command registry cmd meta).1.handled = false →
      ((handle_command registry cmd meta).1.reason =
          some "handler_not_found" ∧
        (handle_command registry cmd meta).1.error = Option.none) ∨
      ((handle_command registry cmd meta).1.reason =
          some "handler_exception" ∧
        (handle_command registry cmd meta).1.error.isSome = true)) ∧
    ((handle_command registry cmd meta).1.handled = true →
      (handle_command registry cmd meta).1.handler_result.isSome = true ∧
      (handle_command registry cmd meta).1.reason = Option.none ∧
      (handle_command registry cmd meta).1.error = Option.none) := by
  unfold handle_command
  cases hq : lookup registry cmd.name with
  | none => simp
  | some h =>
    cases hr : h (cmd.args.map PyVal.str) with
    | ok v => simp [hr]
    | error e => simp [hr]

/-- Witness for C8 amended at a registry miss. -/
theorem c8_outcome_fields_witness :
    ((handle_command emptyRegistry ⟨"lost", [], "/lost"⟩ "m").1.reason =
        some "handler_not_found" ∧
      (handle_command emptyRegistry ⟨"lost", [], "/lost"⟩ "m").1.error =
        Option.none) ∨
    ((handle_command emptyRegistry ⟨"lost", [], "/lost"⟩ "m").1.reason =
        some "handler_exception" ∧
      (handle_command emptyRegistry ⟨"lost", [], "/lost"⟩ "m").1.error.isSome
        = true) :=
  (c8_outcome_fields emptyRegistry ⟨"lost", [], "/lost"⟩ "m").1 rfl

/-- C9: registration stores the handler under the normalized name — the
same `normalize_command_name` the parser uses — so it is reachable by
looking up that normalized name, and registering two handlers under raw
names with equal normalizations leaves exactly the second one reachable
under that key. -/
theorem c9_register_last_wins (r : Registry) (n : String) (h : Handler)
    (n₁ n₂ : String) (h₁ h₂ : Handler)
    (heq : normalize_command_name n₁ = normalize_command_name n₂) :
    lookup (register r n h) (normalize_command_name n) = some h ∧
    lookup (register (register r n₁ h₁) n₂ h₂) (normalize_command_name n₁) =
      some h₂ := by
  constructor
  · simp [lookup, register]
  · simp [lookup, register, heq]

/-- Witness for C9: `" /Foo"` and `"foo"` normalize to the same key, and
the second registration wins. -/
theorem c9_register_last_wins_witness :
    lookup (register emptyRegistry "/health" oneHandler)
      (normalize_command_name "/health") = some oneHandler ∧
    lookup (register (register emptyRegistry " /Foo" oneHandler) "foo"
        twoHandler) (normalize_command_name " /Foo") = some twoHandler :=
  c9_register_last_wins emptyRegistry "/health" oneHandler " /Foo" "foo"
    oneHandler twoHandler (by decide)

end EmailCenter
